import Mathlib

/-!
Verification of the energy-report and reservation coursework repository.

The Python sources are embedded shallowly:
- Python floats are modelled exactly as rationals; `float(str)` becomes
  `pyFloat?`, a parser for sign, integer/fraction digits and exponent.
- `datetime` values are a `Date` and a `Time` of natural components; the
  timestamp parsers model `datetime.fromisoformat` (hyphenated date, optional
  single separator character, colon-separated time, optional fraction and
  offset) and the `strptime` patterns that the repository uses.
- Fallible Python code that raises becomes `Except String` or `Option`.
- Rendering with a two-decimal format specifier is modelled as half-to-even
  rounding at two decimal places over the exact rational value.
-/

/-- Python considers these characters whitespace for `str.strip`; the set
includes the no-break space U+00A0 used in the data files. -/
def isPyWs (c : Char) : Bool :=
  c == ' ' || c == '\t' || c == '\n' || c == '\r' || c == '\x0b' ||
    c == '\x0c' || c == ' '

/-- Model of Python `str.strip()`: drop whitespace from both ends. -/
def stripList (l : List Char) : List Char :=
  (((l.dropWhile isPyWs).reverse).dropWhile isPyWs).reverse

/-- Model of Python `str.strip()` on `String`. -/
def pyStrip (s : String) : String := String.mk (stripList s.data)

/-- Value of a digit character. -/
def digitVal (c : Char) : Nat := c.toNat - 48

/-- Natural number denoted by a list of decimal digit characters. -/
def digitsToNat (l : List Char) : Nat := l.foldl (fun a c => 10 * a + digitVal c) 0

/-- Fraction denoted by the digits after a decimal point. -/
def fracOfDigits (l : List Char) : ℚ := (digitsToNat l : ℚ) / 10 ^ l.length

/-- Split a leading sign character; returns whether the value is negated. -/
def splitSign : List Char → Bool × List Char
  | '-' :: r => (true, r)
  | '+' :: r => (false, r)
  | l => (false, l)

/-- Exponent suffix of a float literal: empty, or e/E, a sign and digits. -/
def parseExpPart (m : ℚ) : List Char → Option ℚ
  | [] => some m
  | c :: rest =>
    if c == 'e' || c == 'E' then
      let p := splitSign rest
      let q := p.2.span Char.isDigit
      if q.1.isEmpty then none
      else if q.2.isEmpty then
        some (if p.1 then m / 10 ^ digitsToNat q.1 else m * 10 ^ digitsToNat q.1)
      else none
    else none

/-- Model of Python `float(str)` on the decimal-literal forms used by the
data files: surrounding whitespace, an optional sign, digits with an optional
decimal point, and an optional exponent.  Returns `none` where Python raises
`ValueError`. -/
def pyFloat? (s : String) : Option ℚ :=
  let l := stripList s.data
  let p := splitSign l
  let q := p.2.span Char.isDigit
  let core : Option (ℚ × List Char) :=
    match q.2 with
    | '.' :: r =>
      let f := r.span Char.isDigit
      if q.1.isEmpty && f.1.isEmpty then none
      else some ((digitsToNat q.1 : ℚ) + fracOfDigits f.1, f.2)
    | _ => if q.1.isEmpty then none else some ((digitsToNat q.1 : ℚ), q.2)
  match core with
  | none => none
  | some mr => parseExpPart (if p.1 then -mr.1 else mr.1) mr.2

/-- Replace every decimal comma by a decimal point, as `s.replace(",", ".")`. -/
def commaToDot (l : List Char) : List Char :=
  l.map (fun c => if c == ',' then '.' else c)

/-- Replace every decimal point by a comma, as `s.replace(".", ",")`. -/
def dotToComma (l : List Char) : List Char :=
  l.map (fun c => if c == '.' then ',' else c)

-- Calendar values ------------------------------------------------------------

/-- A calendar date, as in Python `datetime.date`. -/
structure Date where
  year : Nat
  month : Nat
  day : Nat
deriving DecidableEq

/-- A wall-clock time, as in Python `datetime.time`. -/
structure Time where
  hour : Nat
  minute : Nat
  second : Nat
deriving DecidableEq

/-- A wall-clock timestamp, as in Python `datetime.datetime`; the repository
only ever uses the local date and time components. -/
structure DateTime where
  date : Date
  time : Time
deriving DecidableEq

/-- Lexicographic strict comparison of dates, as Python compares `date`s. -/
def dateLtb (a b : Date) : Bool :=
  decide (a.year < b.year) ||
    (decide (a.year = b.year) && (decide (a.month < b.month) ||
      (decide (a.month = b.month) && decide (a.day < b.day))))

/-- Lexicographic comparison of dates, as Python compares `date`s. -/
def dateLeb (a b : Date) : Bool :=
  decide (a.year < b.year) ||
    (decide (a.year = b.year) && (decide (a.month < b.month) ||
      (decide (a.month = b.month) && decide (a.day ≤ b.day))))

/-- The strict date order as a proposition. -/
def dateLt (a b : Date) : Prop := dateLtb a b = true

/-- The date order as a proposition. -/
def dateLe (a b : Date) : Prop := dateLeb a b = true

instance : DecidableRel dateLt := fun a b =>
  show Decidable (dateLtb a b = true) from inferInstance

instance : DecidableRel dateLe := fun a b =>
  show Decidable (dateLeb a b = true) from inferInstance

/-- Gregorian leap-year rule used by Python `datetime`. -/
def isLeapYear (y : Nat) : Bool :=
  y % 4 == 0 && (y % 100 != 0 || y % 400 == 0)

/-- Days in a month, as validated by the Python `datetime` constructors. -/
def daysInMonth (y m : Nat) : Nat :=
  if m = 2 then (if isLeapYear y then 29 else 28)
  else if m = 4 ∨ m = 6 ∨ m = 9 ∨ m = 11 then 30 else 31

/-- Validity check performed by the `datetime.date` constructor. -/
def validDate (y m d : Nat) : Bool :=
  decide (1 ≤ y) && decide (y ≤ 9999) && decide (1 ≤ m) && decide (m ≤ 12) &&
    decide (1 ≤ d) && decide (d ≤ daysInMonth y m)

-- Timestamp pattern parsers --------------------------------------------------

/-- Consume exactly `n` decimal digits. -/
def parseFixedDigits (n : Nat) (l : List Char) : Option (Nat × List Char) :=
  let ds := l.take n
  if ds.length = n && ds.all Char.isDigit then some (digitsToNat ds, l.drop n)
  else none

/-- A numeric `strptime` field: a two-digit value in `lo2..hi2` is preferred,
otherwise a single digit in `lo1..hi1` is accepted, mirroring the alternation
order of the CPython `_strptime` regular expressions. -/
def parseFlexNum (lo2 hi2 lo1 hi1 : Nat) : List Char → Option (Nat × List Char)
  | c1 :: c2 :: rest =>
    if c1.isDigit && c2.isDigit then
      let v := digitVal c1 * 10 + digitVal c2
      if lo2 ≤ v ∧ v ≤ hi2 then some (v, rest)
      else if lo1 ≤ digitVal c1 ∧ digitVal c1 ≤ hi1 then some (digitVal c1, c2 :: rest)
      else none
    else if c1.isDigit then
      if lo1 ≤ digitVal c1 ∧ digitVal c1 ≤ hi1 then some (digitVal c1, c2 :: rest)
      else none
    else none
  | [c1] =>
    if c1.isDigit then
      if lo1 ≤ digitVal c1 ∧ digitVal c1 ≤ hi1 then some (digitVal c1, []) else none
    else none
  | [] => none

/-- Consume one literal character. -/
def parseLit (c : Char) : List Char → Option (List Char)
  | x :: r => if x == c then some r else none
  | [] => none

/-- Consume one or more whitespace characters, as a space in a `strptime`
format does. -/
def parseWs1 (l : List Char) : Option (List Char) :=
  let p := l.span isPyWs
  if p.1.isEmpty then none else some p.2

/-- Model of `datetime.strptime(s, "%Y-%m-%d %H:%M:%S")`. -/
def strpYmdHMS (s : String) : Option DateTime := do
  let (y, r1) ← parseFixedDigits 4 s.data
  let r2 ← parseLit '-' r1
  let (m, r3) ← parseFlexNum 1 12 1 9 r2
  let r4 ← parseLit '-' r3
  let (d, r5) ← parseFlexNum 1 31 1 9 r4
  let r6 ← parseWs1 r5
  let (h, r7) ← parseFlexNum 0 23 0 9 r6
  let r8 ← parseLit ':' r7
  let (mi, r9) ← parseFlexNum 0 59 0 9 r8
  let r10 ← parseLit ':' r9
  let (se, r11) ← parseFlexNum 0 59 0 9 r10
  if r11.isEmpty && validDate y m d then some ⟨⟨y, m, d⟩, ⟨h, mi, se⟩⟩ else none

/-- Model of `datetime.strptime(s, "%Y-%m-%d %H:%M")`. -/
def strpYmdHM (s : String) : Option DateTime := do
  let (y, r1) ← parseFixedDigits 4 s.data
  let r2 ← parseLit '-' r1
  let (m, r3) ← parseFlexNum 1 12 1 9 r2
  let r4 ← parseLit '-' r3
  let (d, r5) ← parseFlexNum 1 31 1 9 r4
  let r6 ← parseWs1 r5
  let (h, r7) ← parseFlexNum 0 23 0 9 r6
  let r8 ← parseLit ':' r7
  let (mi, r9) ← parseFlexNum 0 59 0 9 r8
  if r9.isEmpty && validDate y m d then some ⟨⟨y, m, d⟩, ⟨h, mi, 0⟩⟩ else none

/-- Model of `datetime.strptime(s, "%Y/%m/%d %H:%M")`. -/
def strpYslashmdHM (s : String) : Option DateTime := do
  let (y, r1) ← parseFixedDigits 4 s.data
  let r2 ← parseLit '/' r1
  let (m, r3) ← parseFlexNum 1 12 1 9 r2
  let r4 ← parseLit '/' r3
  let (d, r5) ← parseFlexNum 1 31 1 9 r4
  let r6 ← parseWs1 r5
  let (h, r7) ← parseFlexNum 0 23 0 9 r6
  let r8 ← parseLit ':' r7
  let (mi, r9) ← parseFlexNum 0 59 0 9 r8
  if r9.isEmpty && validDate y m d then some ⟨⟨y, m, d⟩, ⟨h, mi, 0⟩⟩ else none

/-- Model of `datetime.strptime(s, "%d.%m.%Y %H:%M:%S")`. -/
def strpDotdmYHMS (s : String) : Option DateTime := do
  let (d, r1) ← parseFlexNum 1 31 1 9 s.data
  let r2 ← parseLit '.' r1
  let (m, r3) ← parseFlexNum 1 12 1 9 r2
  let r4 ← parseLit '.' r3
  let (y, r5) ← parseFixedDigits 4 r4
  let r6 ← parseWs1 r5
  let (h, r7) ← parseFlexNum 0 23 0 9 r6
  let r8 ← parseLit ':' r7
  let (mi, r9) ← parseFlexNum 0 59 0 9 r8
  let r10 ← parseLit ':' r9
  let (se, r11) ← parseFlexNum 0 59 0 9 r10
  if r11.isEmpty && validDate y m d then some ⟨⟨y, m, d⟩, ⟨h, mi, se⟩⟩ else none

/-- Model of `datetime.strptime(s, "%Y-%m-%d")`. -/
def strpYmd (s : String) : Option DateTime := do
  let (y, r1) ← parseFixedDigits 4 s.data
  let r2 ← parseLit '-' r1
  let (m, r3) ← parseFlexNum 1 12 1 9 r2
  let r4 ← parseLit '-' r3
  let (d, r5) ← parseFlexNum 1 31 1 9 r4
  if r5.isEmpty && validDate y m d then some ⟨⟨y, m, d⟩, ⟨0, 0, 0⟩⟩ else none

/-- Fractional-second digits of an ISO time: one to six digits. -/
def parseIsoFrac (l : List Char) : Option (List Char) :=
  let p := l.span Char.isDigit
  if p.1.isEmpty || decide (6 < p.1.length) then none else some p.2

/-- Trailing timezone designator of an ISO timestamp: empty, `Z`, or a signed
`HH`, `HH:MM` or `HH:MM:SS` offset.  The repository only uses the local
wall-clock components, so the offset value is checked and discarded. -/
def parseIsoTz : List Char → Option Unit
  | [] => some ()
  | ['Z'] => some ()
  | c :: rest =>
    if c == '+' || c == '-' then do
      let (h, r1) ← parseFixedDigits 2 rest
      if 23 < h then none
      else
        match r1 with
        | [] => some ()
        | ':' :: r2 => do
          let (mi, r3) ← parseFixedDigits 2 r2
          if 59 < mi then none
          else
            match r3 with
            | [] => some ()
            | ':' :: r4 => do
              let (se, r5) ← parseFixedDigits 2 r4
              if 59 < se || !r5.isEmpty then none else some ()
            | _ => none
        | _ => none
    else none

/-- Time part of an ISO timestamp: `HH`, `HH:MM` or `HH:MM:SS`, an optional
fraction after the seconds, and an optional timezone designator. -/
def parseIsoTime (l : List Char) : Option Time := do
  let (h, r1) ← parseFixedDigits 2 l
  if 23 < h then none
  else
    match r1 with
    | ':' :: r2 => do
      let (mi, r3) ← parseFixedDigits 2 r2
      if 59 < mi then none
      else
        match r3 with
        | ':' :: r4 => do
          let (se, r5) ← parseFixedDigits 2 r4
          if 59 < se then none
          else
            match r5 with
            | '.' :: r6 => do
              let r7 ← parseIsoFrac r6
              let _ ← parseIsoTz r7
              some ⟨h, mi, se⟩
            | ',' :: r6 => do
              let r7 ← parseIsoFrac r6
              let _ ← parseIsoTz r7
              some ⟨h, mi, se⟩
            | _ => do
              let _ ← parseIsoTz r5
              some ⟨h, mi, se⟩
        | _ => do
          let _ ← parseIsoTz r3
          some ⟨h, mi, 0⟩
    | _ => do
      let _ ← parseIsoTz r1
      some ⟨h, 0, 0⟩

/-- Model of `datetime.fromisoformat` on the hyphenated forms the repository
feeds it: `YYYY-MM-DD`, optionally followed by any single separator character
and a colon-separated time with optional fraction and timezone designator. -/
def fromisoformat? (s : String) : Option DateTime := do
  let (y, r1) ← parseFixedDigits 4 s.data
  let r2 ← parseLit '-' r1
  let (m, r3) ← parseFixedDigits 2 r2
  let r4 ← parseLit '-' r3
  let (d, r5) ← parseFixedDigits 2 r4
  if validDate y m d then
    match r5 with
    | [] => some ⟨⟨y, m, d⟩, ⟨0, 0, 0⟩⟩
    | _sep :: tl => do
      let t ← parseIsoTime tl
      some ⟨⟨y, m, d⟩, t⟩
  else none

-- The three timestamp-parser entry points ------------------------------------

/-- Model of `TaskD.task_d.parse_timestamp`: strip, delete every `Z`, try
`fromisoformat`, then the three fallback patterns, else raise naming the
input. -/
def taskD_parse_timestamp (text : String) : Except String DateTime :=
  let s := String.mk ((stripList text.data).filter (fun c => c != 'Z'))
  match fromisoformat? s with
  | some dt => .ok dt
  | none =>
    match strpYmdHMS s with
    | some dt => .ok dt
    | none =>
      match strpYslashmdHM s with
      | some dt => .ok dt
      | none =>
        match strpDotdmYHMS s with
        | some dt => .ok dt
        | none => .error ("Unrecognized timestamp format: " ++ text)

/-- Model of `TaskE.task_e.parse_timestamp`: strip, try `fromisoformat`, then
the three fallback patterns, else raise naming the input. -/
def taskE_parse_timestamp (text : String) : Except String DateTime :=
  let s := String.mk (stripList text.data)
  match fromisoformat? s with
  | some dt => .ok dt
  | none =>
    match strpYmdHMS s with
    | some dt => .ok dt
    | none =>
      match strpYmdHM s with
      | some dt => .ok dt
      | none =>
        match strpYmd s with
        | some dt => .ok dt
        | none => .error ("Unrecognized timestamp format: " ++ text)

/-- Model of `TaskF.task_f._parse_timestamp`: strip, try `fromisoformat`, then
a date-only parse of the first ten characters, and finally fall back to the
epoch `datetime(1970, 1, 1)` instead of raising. -/
def taskF_parse_timestamp (text : String) : DateTime :=
  let s := stripList text.data
  match fromisoformat? (String.mk s) with
  | some dt => dt
  | none =>
    match strpYmd (String.mk (s.take 10)) with
    | some dt => dt
    | none => ⟨⟨1970, 1, 1⟩, ⟨0, 0, 0⟩⟩

-- Numeric-normalizer entry points -------------------------------------------

/-- Model of `TaskF.task_f._parse_float`: strip, turn a decimal comma into a
point, parse as a float, and default to zero on failure. -/
def taskF_parse_float (text : String) : ℚ :=
  match pyFloat? (String.mk (commaToDot (stripList text.data))) with
  | some v => v
  | none => 0

/-- Model of the `parse_wh` helper inside `TaskE.task_e.read_data`: strip,
turn a decimal comma into a point, map the empty string to zero, and parse as
a float; a parse failure propagates as an error (caught by the row loop). -/
def parse_wh (text : String) : Except String ℚ :=
  let t := commaToDot (stripList text.data)
  if t.isEmpty then .ok 0
  else
    match pyFloat? (String.mk t) with
    | some v => .ok v
    | none => .error ("could not convert string to float: " ++ String.mk t)

/-- Round half to even, the behaviour of Python `round(x)` on the exact
rational value. -/
def roundHalfEven (q : ℚ) : ℤ :=
  let f := ⌊q⌋
  if q - f < 1 / 2 then f
  else if 1 / 2 < q - f then f + 1
  else if 2 ∣ f then f else f + 1

/-- Model of the `to_wh` helper inside `TaskD.task_d.read_data`: strip,
replace no-break spaces by plain spaces, map the empty string to zero, and
otherwise round the parsed float (decimal comma allowed) to an integer number
of watt-hours. -/
def to_wh (s : String) : Except String ℤ :=
  let t := (stripList s.data).map (fun c => if c == ' ' then ' ' else c)
  if t.isEmpty then .ok 0
  else
    match pyFloat? (String.mk (commaToDot t)) with
    | some q => .ok (roundHalfEven q)
    | none => .error ("could not convert string to float: " ++ String.mk t)

-- Column detector (TaskE) -----------------------------------------------------

/-- Does `pat` occur at the start of `l`? -/
def startsWithSeq : List Char → List Char → Bool
  | [], _ => true
  | _ :: _, [] => false
  | p :: ps, c :: cs => p == c && startsWithSeq ps cs

/-- Does `pat` occur as a contiguous run inside `l`?  Model of Python
substring membership. -/
def hasSub : List Char → List Char → Bool
  | pat, [] => pat.isEmpty
  | pat, c :: cs => startsWithSeq pat (c :: cs) || hasSub pat cs

/-- Model of `TaskE.task_e._normalize_header`: lowercase, delete whitespace,
dashes, brackets, parentheses and underscores, then delete every occurrence
of the unit mention `wh`. -/
def removeWhPairs : List Char → List Char
  | 'w' :: 'h' :: rest => removeWhPairs rest
  | c :: rest => c :: removeWhPairs rest
  | [] => []

/-- Normalized header text, as a character list. -/
def normHeader (h : String) : List Char :=
  removeWhPairs (((stripList h.data).map Char.toLower).filter
    (fun c => !(isPyWs c || c == '-' || c == '[' || c == ']' ||
      c == '(' || c == ')' || c == '_')))

/-- Timestamp-column test of `_detect_columns`: the normalized header
contains `timestamp` or `datetime`, or equals `time` or `date`. -/
def tsPred (nf : List Char) : Bool :=
  hasSub "timestamp".data nf || hasSub "datetime".data nf ||
    nf == "time".data || nf == "date".data

/-- Consumption-candidate test of `_detect_columns`. -/
def consCand (nf : List Char) : Bool :=
  hasSub "consumption".data nf || hasSub "cons".data nf || hasSub "kulutus".data nf

/-- Production-candidate test of `_detect_columns`. -/
def prodCand (nf : List Char) : Bool :=
  hasSub "production".data nf || hasSub "prod".data nf || hasSub "tuotanto".data nf

/-- Is the character a phase digit? -/
def isPhaseDigit (c : Char) : Bool := c == '1' || c == '2' || c == '3'

/-- The digit captured by the greedy regular expression `.*([123]).*`: the
last phase digit occurring in the text. -/
def lastDigit123 (nf : List Char) : Option Nat :=
  match nf.reverse.find? isPhaseDigit with
  | some c => some (digitVal c)
  | none => none

/-- The first phase digit occurring in the text (what a non-greedy reading
of the pattern would capture). -/
def firstDigit123 (nf : List Char) : Option Nat :=
  match nf.find? isPhaseDigit with
  | some c => some (digitVal c)
  | none => none

/-- The per-phase column assignment being built by `_detect_columns`. -/
structure PhaseCols where
  p1 : Option String
  p2 : Option String
  p3 : Option String
deriving DecidableEq

/-- Record header `fn` for phase `p` unless that phase already has a column:
`if p in (1, 2, 3) and p not in cols: cols[p] = fn`. -/
def PhaseCols.assign (pc : PhaseCols) (p : Nat) (fn : String) : PhaseCols :=
  if p = 1 then (if pc.p1 = none then ⟨some fn, pc.p2, pc.p3⟩ else pc)
  else if p = 2 then (if pc.p2 = none then ⟨pc.p1, some fn, pc.p3⟩ else pc)
  else if p = 3 then (if pc.p3 = none then ⟨pc.p1, pc.p2, some fn⟩ else pc)
  else pc

/-- The header scan of `_detect_columns` over the field names in order. -/
def scanPhases : List String → PhaseCols → PhaseCols → PhaseCols × PhaseCols
  | [], cc, pc => (cc, pc)
  | fn :: rest, cc, pc =>
    let nf := normHeader fn
    let cc2 := if consCand nf then
        (match lastDigit123 nf with | some p => cc.assign p fn | none => cc)
      else cc
    let pc2 := if prodCand nf then
        (match lastDigit123 nf with | some p => pc.assign p fn | none => pc)
      else pc
    scanPhases rest cc2 pc2

/-- The scan of one role (consumption or production) over the field names;
`scanPhases` is the simultaneous scan of both roles. -/
def scanRole (cand : List Char → Bool) : List String → PhaseCols → PhaseCols
  | [], pc => pc
  | fn :: rest, pc =>
    let nf := normHeader fn
    scanRole cand rest (if cand nf then
      (match lastDigit123 nf with | some p => pc.assign p fn | none => pc) else pc)

/-- The first field name that is a candidate for the given role and whose
greedily captured (last) phase digit is `p`. -/
def phaseFind (cand : List Char → Bool) (p : Nat) (l : List String) : Option String :=
  l.find? (fun fn => cand (normHeader fn) && (lastDigit123 (normHeader fn) == some p))

/-- Model of `TaskE.task_e._detect_columns`: identify the timestamp column
and the three consumption and three production columns, or fail. -/
def _detect_columns (fieldnames : List String) :
    Except String (String × (String × String × String) × (String × String × String)) :=
  if fieldnames.isEmpty then .error "CSV has no header row."
  else
    match fieldnames.find? (fun fn => tsPred (normHeader fn)) with
    | none => .error "Could not detect timestamp column."
    | some tsCol =>
      let r := scanPhases fieldnames ⟨none, none, none⟩ ⟨none, none, none⟩
      match r.1.p1, r.1.p2, r.1.p3, r.2.p1, r.2.p2, r.2.p3 with
      | some c1, some c2, some c3, some q1, some q2, some q3 =>
        .ok (tsCol, (c1, c2, c3), (q1, q2, q3))
      | _, _, _, _, _, _ => .error "Could not detect all required phase columns."

-- Number and date rendering ---------------------------------------------------

/-- Decimal digit characters of a natural number (structural recursion on a
fuel argument; `fuel = n + 1` always suffices). -/
def natStrAux : Nat → Nat → List Char
  | 0, _ => []
  | fuel + 1, n =>
    if n < 10 then [Nat.digitChar n]
    else natStrAux fuel (n / 10) ++ [Nat.digitChar (n % 10)]

/-- Decimal rendering of a natural number, as Python renders an `int`. -/
def natStr (n : Nat) : List Char := natStrAux (n + 1) n

/-- Two-digit zero-padded rendering, as the format specifier `02d` and the
`strftime` fields `%d` and `%m` produce. -/
def pad2 (n : Nat) : List Char :=
  if n < 100 then [Nat.digitChar (n / 10), Nat.digitChar (n % 10)] else natStr n

/-- Model of the format specifier `.2f` on the exact rational value: round
half to even at two decimal places and render with exactly two fraction
digits. -/
def formatFixed2 (q : ℚ) : List Char :=
  let n := roundHalfEven (q * 100)
  (if n < 0 then ['-'] else []) ++ natStr (n.natAbs / 100) ++
    '.' :: pad2 (n.natAbs % 100)

/-- Model of `TaskE.task_e.fi_number`: two decimals, comma separator. -/
def fi_number (q : ℚ) : String := String.mk (dotToComma (formatFixed2 q))

/-- Model of `TaskD.task_d.kwh_str_from_wh`: divide watt-hours by 1000 and
render with two decimals and a comma separator. -/
def kwh_str_from_wh (totalWh : ℚ) : String :=
  String.mk (dotToComma (formatFixed2 (totalWh / 1000)))

/-- Model of `TaskF.task_f._fmt_decimal` (also `fmt_kwh` and `fmt_temp`):
two decimals, comma separator. -/
def taskF_fmt_decimal (q : ℚ) : String := String.mk (dotToComma (formatFixed2 q))

/-- Model of `TaskF.task_f.fmt_date`: day and month without zero padding. -/
def fmt_date (d : Date) : String :=
  String.mk (natStr d.day ++ '.' :: natStr d.month ++ '.' :: natStr d.year)

/-- Model of `TaskD.task_d.format_date_fi`, `strftime("%d.%m.%Y")`: zero
padded day and month. -/
def format_date_fi (d : Date) : String :=
  String.mk (pad2 d.day ++ '.' :: pad2 d.month ++ '.' :: natStr d.year)

/-- Model of `TaskE.task_e.fi_date`: zero padded day and month via `02d`. -/
def fi_date (d : Date) : String :=
  String.mk (pad2 d.day ++ '.' :: pad2 d.month ++ '.' :: natStr d.year)

/-- Shape of a rendered decimal quantity: some prefix free of separators,
then a comma and exactly two fraction digits, and no decimal point anywhere. -/
def TwoFracComma (s : String) : Prop :=
  ∃ pre a b, s.data = pre ++ [',', a, b] ∧ a.isDigit = true ∧ b.isDigit = true ∧
    ∀ c ∈ pre, c ≠ ',' ∧ c ≠ '.'

/-- Shape of a zero-padded `dd.mm.yyyy` date rendering: two digits, a point,
two digits, a point and a nonempty run of digits. -/
def isPaddedDMY (s : String) : Bool :=
  match s.data with
  | a :: b :: p1 :: c :: d :: p2 :: rest =>
    a.isDigit && b.isDigit && (p1 == '.') && c.isDigit && d.isDigit &&
      (p2 == '.') && !rest.isEmpty && rest.all Char.isDigit
  | _ => false

-- Daily aggregation (TaskE summarize_days, TaskD daily_totals_wh) -------------

/-- One hourly measurement row of Task E (`HourRow`), values in Wh. -/
structure HourRow where
  timestamp : DateTime
  cons_wh : ℚ × ℚ × ℚ
  prod_wh : ℚ × ℚ × ℚ
deriving DecidableEq

/-- Aggregated totals for one calendar day of Task E (`DaySummary`), kWh. -/
structure DaySummary where
  day : Date
  cons_kwh : ℚ × ℚ × ℚ
  prod_kwh : ℚ × ℚ × ℚ
deriving DecidableEq

/-- One CSV row of Task D (`Row`), whole watt-hours. -/
structure Row where
  timestamp : DateTime
  consumption_wh : ℤ × ℤ × ℤ
  production_wh : ℤ × ℤ × ℤ
deriving DecidableEq

/-- Componentwise sum of phase triples. -/
def add3 (a b : ℚ × ℚ × ℚ) : ℚ × ℚ × ℚ :=
  (a.1 + b.1, a.2.1 + b.2.1, a.2.2 + b.2.2)

/-- Divide each phase by 1000, the Wh to kWh conversion. -/
def div1000 (a : ℚ × ℚ × ℚ) : ℚ × ℚ × ℚ :=
  (a.1 / 1000, a.2.1 / 1000, a.2.2 / 1000)

/-- Cast an integer triple to rationals, as `float()` of the Task D values. -/
def int3ToRat (a : ℤ × ℤ × ℤ) : ℚ × ℚ × ℚ := ((a.1 : ℚ), (a.2.1 : ℚ), (a.2.2 : ℚ))

/-- Running per-day totals, the value type of the accumulating dict. -/
structure DayTot where
  cons : ℚ × ℚ × ℚ
  prod : ℚ × ℚ × ℚ
deriving DecidableEq

/-- The all-zero totals a `defaultdict` entry starts from. -/
def DayTot.zero : DayTot := ⟨(0, 0, 0), (0, 0, 0)⟩

/-- Add one row of contributions to a running total. -/
def DayTot.addRow (t : DayTot) (c p : ℚ × ℚ × ℚ) : DayTot :=
  ⟨add3 t.cons c, add3 t.prod p⟩

/-- Componentwise sum of two totals. -/
def DayTot.addTot (t u : DayTot) : DayTot := ⟨add3 t.cons u.cons, add3 t.prod u.prod⟩

/-- One `defaultdict` update `acc[d] += (c, p)`: add to the existing entry
for `d`, or append a fresh entry at the end (Python dicts keep insertion
order). -/
def bump : List (Date × DayTot) → Date → (ℚ × ℚ × ℚ) → (ℚ × ℚ × ℚ) →
    List (Date × DayTot)
  | [], d, c, p => [(d, DayTot.zero.addRow c p)]
  | (e, t) :: rest, d, c, p =>
    if e = d then (e, t.addRow c p) :: rest else (e, t) :: bump rest d c p

/-- The accumulation loop shared by `summarize_days` and `daily_totals_wh`:
fold the rows into a per-date dict of running sums. -/
def accumBy (dt : α → Date) (cv pv : α → ℚ × ℚ × ℚ) (rows : List α) :
    List (Date × DayTot) :=
  rows.foldl (fun acc r => bump acc (dt r) (cv r) (pv r)) []

/-- Keys of the accumulated dict, in insertion order. -/
def keysOf (acc : List (Date × DayTot)) : List Date := acc.map Prod.fst

/-- Dict lookup with the zero default of `defaultdict`. -/
def lookupTot (d : Date) : List (Date × DayTot) → DayTot
  | [] => DayTot.zero
  | (e, t) :: rest => if e = d then t else lookupTot d rest

/-- `sorted(keys)` of the accumulated dict: ascending date order. -/
def sortDates (l : List Date) : List Date := List.insertionSort dateLe l

/-- Componentwise sum of a list of phase triples. -/
def sum3 (l : List (ℚ × ℚ × ℚ)) : ℚ × ℚ × ℚ := l.foldr add3 (0, 0, 0)

/-- The contribution of the rows whose date is `d` to the accumulated
totals. -/
def dateContrib (dt : α → Date) (cv pv : α → ℚ × ℚ × ℚ) (d : Date)
    (rows : List α) : DayTot :=
  rows.foldr (fun r t => if dt r = d then t.addRow (cv r) (pv r) else t) DayTot.zero

/-- Model of `TaskE.task_e.summarize_days`: accumulate per-date Wh sums,
then emit one `DaySummary` per date in ascending date order, converted to
kWh. -/
def summarize_days (hour_rows : List HourRow) : List DaySummary :=
  let daily := accumBy (fun r => r.timestamp.date) (fun r => r.cons_wh)
    (fun r => r.prod_wh) hour_rows
  (sortDates (keysOf daily)).map (fun d =>
    ⟨d, div1000 (lookupTot d daily).cons, div1000 (lookupTot d daily).prod⟩)

/-- Model of `TaskD.task_d.daily_totals_wh`: accumulate per-date Wh sums of
the integer row values and emit them per date in ascending date order, still
in watt-hours. -/
def daily_totals_wh (rows : List Row) : List (Date × DayTot) :=
  let acc := accumBy (fun r => r.timestamp.date) (fun r => int3ToRat r.consumption_wh)
    (fun r => int3ToRat r.production_wh) rows
  (sortDates (keysOf acc)).map (fun d => (d, lookupTot d acc))

-- Tabular readers -------------------------------------------------------------

/-- Blank-row test of `TaskD.task_d.read_data`:
`not raw or all(not c.strip() for c in raw)`. -/
def blankRow (raw : List String) : Bool :=
  raw.isEmpty || raw.all (fun c => (stripList c.data).isEmpty)

/-- The row loop of `TaskD.task_d.read_data` over already-split CSV rows:
skip blank rows, silently skip any row whose first cell is not a parsable
timestamp, require at least 7 columns, and convert six watt-hour fields;
a conversion error aborts the whole read. -/
def taskD_readRows : List (List String) → Except String (List Row)
  | [] => .ok []
  | raw :: rest =>
    if blankRow raw then taskD_readRows rest
    else
      match taskD_parse_timestamp (raw.headD "") with
      | .error _ => taskD_readRows rest
      | .ok ts =>
        if raw.length < 7 then
          .error ("Expected at least 7 columns, got " ++ String.mk (natStr raw.length))
        else do
          let c1 ← to_wh (raw.getD 1 "")
          let c2 ← to_wh (raw.getD 2 "")
          let c3 ← to_wh (raw.getD 3 "")
          let p1 ← to_wh (raw.getD 4 "")
          let p2 ← to_wh (raw.getD 5 "")
          let p3 ← to_wh (raw.getD 6 "")
          let rows ← taskD_readRows rest
          return ⟨ts, (c1, c2, c3), (p1, p2, p3)⟩ :: rows

/-- `rec.get(key, "")` over a `DictReader` record modelled as an association
list from header to cell text. -/
def getField (rec : List (String × String)) (key : String) : String :=
  match rec.find? (fun kv => kv.1 == key) with
  | some kv => kv.2
  | none => ""

/-- The per-row body of the `TaskE.task_e.read_data` loop: parse the
timestamp and the six watt-hour fields of one record. -/
def taskE_parseRow (tsCol : String) (consCols prodCols : String × String × String)
    (rec : List (String × String)) : Except String HourRow := do
  let ts ← taskE_parse_timestamp (getField rec tsCol)
  let c1 ← parse_wh (getField rec consCols.1)
  let c2 ← parse_wh (getField rec consCols.2.1)
  let c3 ← parse_wh (getField rec consCols.2.2)
  let p1 ← parse_wh (getField rec prodCols.1)
  let p2 ← parse_wh (getField rec prodCols.2.1)
  let p3 ← parse_wh (getField rec prodCols.2.2)
  return ⟨ts, (c1, c2, c3), (p1, p2, p3)⟩

/-- The row loop of `TaskE.task_e.read_data`: rows are numbered from `i`
(line 2 of the file, the header being line 1); the first failing row aborts
the whole read with an error naming the file and the 1-based line number. -/
def taskE_readRows (filename : String) (tsCol : String)
    (consCols prodCols : String × String × String) :
    Nat → List (List (String × String)) → Except String (List HourRow)
  | _, [] => .ok []
  | i, rec :: rest =>
    match taskE_parseRow tsCol consCols prodCols rec with
    | .error e =>
      .error ("Error parsing " ++ filename ++ " at line " ++ String.mk (natStr i) ++
        ": " ++ e)
    | .ok row =>
      match taskE_readRows filename tsCol consCols prodCols (i + 1) rest with
      | .error e => .error e
      | .ok rows => .ok (row :: rows)

-- Reservations (TaskC, TaskG) -------------------------------------------------

/-- One reservation record, the 11 typed fields shared by Task C and both
Task G variants. -/
structure Reservation where
  reservationId : ℤ
  name : String
  email : String
  phone : String
  reservationDate : Date
  reservationTime : Time
  durationHours : ℤ
  price : ℚ
  confirmed : Bool
  reservedResource : String
  createdAt : DateTime
deriving DecidableEq

/-- Model of `TaskC.task_c.confirmation_summary`: the pair of printed counts
(confirmed, not confirmed), with `not_confirmed = len - confirmed`. -/
def taskC_confirmation_summary (reservations : List Reservation) : ℤ × ℤ :=
  let confirmedCount : ℤ := (reservations.filter (fun r => r.confirmed)).length
  (confirmedCount, (reservations.length : ℤ) - confirmedCount)

/-- Model of `TaskG.task_g_class.confirmation_summary`:
`not_confirmed = (len + 1) - confirmed`. -/
def taskG_class_confirmation_summary (reservations : List Reservation) : ℤ × ℤ :=
  let confirmed : ℤ := (reservations.filter (fun r => r.confirmed)).length
  (confirmed, ((reservations.length : ℤ) + 1) - confirmed)

/-- Model of `TaskG.task_g_dict.confirmation_summary`:
`not_confirmed = (len + 1) - confirmed`. -/
def taskG_dict_confirmation_summary (reservations : List Reservation) : ℤ × ℤ :=
  let confirmed : ℤ := (reservations.filter (fun r => r.confirmed)).length
  (confirmed, ((reservations.length : ℤ) + 1) - confirmed)

-- Task F daily-range report ---------------------------------------------------

/-- One hourly measurement of Task F (`Measurement`). -/
structure Measurement where
  dt : DateTime
  consumption : ℚ
  production : ℚ
  temperature : ℚ
deriving DecidableEq

/-- The computation of `TaskF.task_f.create_daily_report` after the two
dates are read: swap them when the end precedes the start, select the
measurements of the inclusive range, and total consumption, production and
the average temperature.  Returns the effective period, the selection and
the three reported quantities. -/
def create_daily_report_core (data : List Measurement) (start endD : Date) :
    (Date × Date) × List Measurement × ℚ × ℚ × Option ℚ :=
  let p := if dateLtb endD start then (endD, start) else (start, endD)
  let selected := data.filter
    (fun m => dateLeb p.1 m.dt.date && dateLeb m.dt.date p.2)
  let totalCons := (selected.map (fun m => m.consumption)).sum
  let totalProd := (selected.map (fun m => m.production)).sum
  let temps := selected.map (fun m => m.temperature)
  let avgTemp : Option ℚ :=
    if temps.isEmpty then none else some (temps.sum / (temps.length : ℚ))
  (p, selected, totalCons, totalProd, avgTemp)

example : pyFloat? "19.95" = some (1995 / 100) := by with_unfolding_all rfl
example : pyFloat? "19,95" = none := by rfl
example : pyFloat? "" = none := by rfl
example : pyFloat? "-2e3" = some (-2000) := by with_unfolding_all rfl
example : pyFloat? "1 5" = none := by rfl
example : taskE_parse_timestamp "2025-10-13T00:00:00" =
    .ok ⟨⟨2025, 10, 13⟩, ⟨0, 0, 0⟩⟩ := by rfl
example : taskD_parse_timestamp "2025-10-13 07:00:00Z" =
    .ok ⟨⟨2025, 10, 13⟩, ⟨7, 0, 0⟩⟩ := by rfl
example : taskF_parse_timestamp "garbage" = ⟨⟨1970, 1, 1⟩, ⟨0, 0, 0⟩⟩ := by rfl
example : taskE_parse_timestamp "2025-10-13 07:30" =
    .ok ⟨⟨2025, 10, 13⟩, ⟨7, 30, 0⟩⟩ := by rfl
example : (taskE_parse_timestamp "nope").isOk = false := by rfl

example : _detect_columns ["Time", "Cons 1-2", "Cons 1", "Cons 3", "Prod 1", "Prod 2", "Prod 3"] =
    .ok ("Time", ("Cons 1", "Cons 1-2", "Cons 3"), ("Prod 1", "Prod 2", "Prod 3")) := by rfl
example : firstDigit123 (normHeader "Cons 1-2") = some 1 := by rfl
example : _detect_columns ["Time", "Consumption phase 1 Wh", "Consumption phase 2 Wh",
    "Consumption phase 3 Wh", "Production phase 1 Wh", "Production phase 2 Wh",
    "Production phase 3 Wh"] =
    .ok ("Time", ("Consumption phase 1 Wh", "Consumption phase 2 Wh", "Consumption phase 3 Wh"),
      ("Production phase 1 Wh", "Production phase 2 Wh", "Production phase 3 Wh")) := by rfl
example : fmt_date ⟨2025, 11, 1⟩ = "1.11.2025" := by rfl
example : fi_date ⟨2025, 11, 1⟩ = "01.11.2025" := by rfl
example : fi_number 24 = "24,00" := by with_unfolding_all rfl
example : kwh_str_from_wh 1360 = "1,36" := by with_unfolding_all rfl
example : taskF_fmt_decimal (-1/2) = "-0,50" := by with_unfolding_all rfl
example : to_wh "10.6" = .ok 11 := by with_unfolding_all rfl
example : to_wh "2.5" = .ok 2 := by with_unfolding_all rfl
example : to_wh "3.5" = .ok 4 := by with_unfolding_all rfl
example : to_wh "" = .ok 0 := by with_unfolding_all rfl
set_option maxRecDepth 100000 in
example : summarize_days
    [⟨⟨⟨2025, 10, 14⟩, ⟨0, 0, 0⟩⟩, (1000, 0, 0), (0, 0, 0)⟩,
     ⟨⟨⟨2025, 10, 13⟩, ⟨5, 0, 0⟩⟩, (500, 0, 0), (0, 250, 0)⟩,
     ⟨⟨⟨2025, 10, 14⟩, ⟨6, 0, 0⟩⟩, (1500, 0, 0), (0, 0, 0)⟩] =
    [⟨⟨2025, 10, 13⟩, (1/2, 0, 0), (0, 1/4, 0)⟩,
     ⟨⟨2025, 10, 14⟩, (5/2, 0, 0), (0, 0, 0)⟩] := by with_unfolding_all rfl
set_option maxRecDepth 100000 in
example : taskD_readRows [["header", "x"], ["junk"], ["2025-10-13 00:00:00", "5", "6", "7", "1", "2", "3"]] =
    .ok [⟨⟨⟨2025, 10, 13⟩, ⟨0, 0, 0⟩⟩, (5, 6, 7), (1, 2, 3)⟩] := by with_unfolding_all rfl

-- Date order facts ------------------------------------------------------------

theorem dateLeb_iff (a b : Date) : dateLeb a b = true ↔
    (a.year < b.year ∨ (a.year = b.year ∧ (a.month < b.month ∨
      (a.month = b.month ∧ a.day ≤ b.day)))) := by
  simp [dateLeb]

theorem dateLtb_iff (a b : Date) : dateLtb a b = true ↔
    (a.year < b.year ∨ (a.year = b.year ∧ (a.month < b.month ∨
      (a.month = b.month ∧ a.day < b.day)))) := by
  simp [dateLtb]

instance : IsTotal Date dateLe :=
  ⟨by intro a b; simp only [dateLe, dateLeb_iff]; omega⟩

instance : IsTrans Date dateLe :=
  ⟨by intro a b c hab hbc; simp only [dateLe, dateLeb_iff] at hab hbc ⊢; omega⟩

instance : IsAntisymm Date dateLe := by
  refine ⟨fun a b hab hba => ?_⟩
  cases a; cases b
  simp only [dateLe, dateLeb_iff] at hab hba
  simp only [Date.mk.injEq]
  omega

theorem dateLt_of_le_of_ne {a b : Date} (h : dateLe a b) (hne : a ≠ b) :
    dateLt a b := by
  cases a; cases b
  simp only [dateLe, dateLeb_iff] at h
  simp only [Ne, Date.mk.injEq] at hne
  simp only [dateLt, dateLtb_iff]
  omega

theorem dateLtb_asymm {a b : Date} (h1 : dateLtb a b = true)
    (h2 : dateLtb b a = true) : False := by
  simp only [dateLtb_iff] at h1 h2; omega

theorem dateLtb_connex {a b : Date} (h1 : dateLtb a b = false)
    (h2 : dateLtb b a = false) : a = b := by
  have e1 : ¬ dateLtb a b = true := by simp [h1]
  have e2 : ¬ dateLtb b a = true := by simp [h2]
  cases a; cases b
  simp only [dateLtb_iff] at e1 e2
  simp only [Date.mk.injEq]
  omega

theorem sorted_dateLt_of_nodup {l : List Date} (hs : l.Sorted dateLe)
    (hn : l.Nodup) : l.Sorted dateLt :=
  List.Pairwise.imp₂ (fun _ _ hle hne => dateLt_of_le_of_ne hle hne) hs hn

-- Accumulator facts -----------------------------------------------------------

theorem add3_zero_right (x : ℚ × ℚ × ℚ) : add3 x (0, 0, 0) = x := by
  obtain ⟨x1, x2, x3⟩ := x
  simp [add3]

theorem add3_zero_left (x : ℚ × ℚ × ℚ) : add3 (0, 0, 0) x = x := by
  obtain ⟨x1, x2, x3⟩ := x
  simp [add3]

theorem add3_right_swap (x c s : ℚ × ℚ × ℚ) :
    add3 (add3 x c) s = add3 x (add3 s c) := by
  obtain ⟨x1, x2, x3⟩ := x
  obtain ⟨c1, c2, c3⟩ := c
  obtain ⟨s1, s2, s3⟩ := s
  simp only [add3, Prod.mk.injEq]
  refine ⟨by ring, by ring, by ring⟩

theorem add3_comm (x y : ℚ × ℚ × ℚ) : add3 x y = add3 y x := by
  obtain ⟨x1, x2, x3⟩ := x
  obtain ⟨y1, y2, y3⟩ := y
  simp only [add3, Prod.mk.injEq]
  refine ⟨by ring, by ring, by ring⟩

theorem addTot_zero_left (t : DayTot) : DayTot.addTot DayTot.zero t = t := by
  cases t
  simp only [DayTot.addTot, DayTot.zero, DayTot.mk.injEq]
  exact ⟨add3_zero_left _, add3_zero_left _⟩

theorem addTot_zero_right (t : DayTot) : DayTot.addTot t DayTot.zero = t := by
  cases t
  simp only [DayTot.addTot, DayTot.zero, DayTot.mk.injEq]
  exact ⟨add3_zero_right _, add3_zero_right _⟩

theorem addTot_addRow (t s : DayTot) (c p : ℚ × ℚ × ℚ) :
    DayTot.addTot (t.addRow c p) s = DayTot.addTot t (s.addRow c p) := by
  cases t; cases s
  simp [DayTot.addTot, DayTot.addRow, add3_right_swap]

theorem lookupTot_bump_self (acc : List (Date × DayTot)) (d : Date)
    (c p : ℚ × ℚ × ℚ) :
    lookupTot d (bump acc d c p) = (lookupTot d acc).addRow c p := by
  induction acc with
  | nil => simp [bump, lookupTot]
  | cons h t ih =>
    obtain ⟨e, u⟩ := h
    by_cases he : e = d
    · subst he; simp [bump, lookupTot]
    · simp [bump, lookupTot, he, ih]

theorem lookupTot_bump_other (acc : List (Date × DayTot)) (d e : Date)
    (c p : ℚ × ℚ × ℚ) (hne : e ≠ d) :
    lookupTot d (bump acc e c p) = lookupTot d acc := by
  induction acc with
  | nil => simp [bump, lookupTot, hne]
  | cons h t ih =>
    obtain ⟨f, u⟩ := h
    by_cases hf : f = e
    · subst hf; simp [bump, lookupTot, hne]
    · simp [bump, lookupTot, hf, ih]

theorem mem_keysOf_bump (acc : List (Date × DayTot)) (d x : Date)
    (c p : ℚ × ℚ × ℚ) :
    x ∈ keysOf (bump acc d c p) ↔ x ∈ keysOf acc ∨ x = d := by
  induction acc with
  | nil => simp [bump, keysOf]
  | cons h t ih =>
    obtain ⟨e, u⟩ := h
    by_cases he : e = d
    · subst he
      simp [bump, keysOf, List.mem_cons]
      tauto
    · simp only [bump, if_neg he, keysOf, List.map_cons, List.mem_cons]
      rw [show (bump t d c p).map Prod.fst = keysOf (bump t d c p) from rfl, ih]
      simp only [keysOf]
      tauto

theorem nodup_keysOf_bump (acc : List (Date × DayTot)) (d : Date)
    (c p : ℚ × ℚ × ℚ) (hn : (keysOf acc).Nodup) :
    (keysOf (bump acc d c p)).Nodup := by
  induction acc with
  | nil => simp [bump, keysOf]
  | cons h t ih =>
    obtain ⟨e, u⟩ := h
    simp only [keysOf, List.map_cons, List.nodup_cons] at hn
    by_cases he : e = d
    · subst he
      simp only [bump, if_pos trivial, ite_true, keysOf, List.map_cons,
        List.nodup_cons]
      simpa using hn
    · simp only [bump, if_neg he, keysOf, List.map_cons, List.nodup_cons]
      refine ⟨?_, ih hn.2⟩
      intro hmem
      rcases (mem_keysOf_bump t d e c p).1 hmem with hx | rfl
      · exact hn.1 hx
      · exact he rfl

theorem mem_keysOf_foldl_bump (dt : α → Date) (cv pv : α → ℚ × ℚ × ℚ) (x : Date) :
    ∀ (rows : List α) (acc : List (Date × DayTot)),
      x ∈ keysOf (rows.foldl (fun a r => bump a (dt r) (cv r) (pv r)) acc) ↔
        x ∈ keysOf acc ∨ x ∈ rows.map dt := by
  intro rows
  induction rows with
  | nil => intro acc; simp
  | cons r t ih =>
    intro acc
    rw [List.foldl_cons, ih, mem_keysOf_bump]
    simp only [List.map_cons, List.mem_cons]
    tauto

theorem nodup_keysOf_foldl_bump (dt : α → Date) (cv pv : α → ℚ × ℚ × ℚ) :
    ∀ (rows : List α) (acc : List (Date × DayTot)), (keysOf acc).Nodup →
      (keysOf (rows.foldl (fun a r => bump a (dt r) (cv r) (pv r)) acc)).Nodup := by
  intro rows
  induction rows with
  | nil => intro acc h; simpa using h
  | cons r t ih =>
    intro acc h
    rw [List.foldl_cons]
    exact ih _ (nodup_keysOf_bump _ _ _ _ h)

theorem lookupTot_foldl_bump (dt : α → Date) (cv pv : α → ℚ × ℚ × ℚ) (d : Date) :
    ∀ (rows : List α) (acc : List (Date × DayTot)),
      lookupTot d (rows.foldl (fun a r => bump a (dt r) (cv r) (pv r)) acc) =
        DayTot.addTot (lookupTot d acc) (dateContrib dt cv pv d rows) := by
  intro rows
  induction rows with
  | nil => intro acc; simp [dateContrib, addTot_zero_right]
  | cons r t ih =>
    intro acc
    rw [List.foldl_cons, ih]
    by_cases hd : dt r = d
    · rw [hd, lookupTot_bump_self]
      simp only [dateContrib, List.foldr_cons, if_pos hd]
      exact addTot_addRow _ _ _ _
    · rw [lookupTot_bump_other _ _ _ _ _ hd]
      simp only [dateContrib, List.foldr_cons, if_neg hd]

theorem mem_keysOf_accumBy (dt : α → Date) (cv pv : α → ℚ × ℚ × ℚ)
    (rows : List α) (x : Date) :
    x ∈ keysOf (accumBy dt cv pv rows) ↔ x ∈ rows.map dt := by
  rw [accumBy, mem_keysOf_foldl_bump]
  simp [keysOf]

theorem nodup_keysOf_accumBy (dt : α → Date) (cv pv : α → ℚ × ℚ × ℚ)
    (rows : List α) : (keysOf (accumBy dt cv pv rows)).Nodup := by
  rw [accumBy]
  exact nodup_keysOf_foldl_bump dt cv pv rows [] (by simp [keysOf])

theorem lookupTot_accumBy (dt : α → Date) (cv pv : α → ℚ × ℚ × ℚ)
    (rows : List α) (d : Date) :
    lookupTot d (accumBy dt cv pv rows) = dateContrib dt cv pv d rows := by
  rw [accumBy, lookupTot_foldl_bump]
  simp only [lookupTot]
  exact addTot_zero_left _

theorem sum3_fst (l : List (ℚ × ℚ × ℚ)) : (sum3 l).1 = (l.map (fun x => x.1)).sum := by
  induction l with
  | nil => simp [sum3]
  | cons x t ih => simp [sum3, add3, List.foldr_cons] at ih ⊢; rw [ih]

theorem sum3_snd_fst (l : List (ℚ × ℚ × ℚ)) :
    (sum3 l).2.1 = (l.map (fun x => x.2.1)).sum := by
  induction l with
  | nil => simp [sum3]
  | cons x t ih => simp [sum3, add3, List.foldr_cons] at ih ⊢; rw [ih]

theorem sum3_snd_snd (l : List (ℚ × ℚ × ℚ)) :
    (sum3 l).2.2 = (l.map (fun x => x.2.2)).sum := by
  induction l with
  | nil => simp [sum3]
  | cons x t ih => simp [sum3, add3, List.foldr_cons] at ih ⊢; rw [ih]

theorem dateContrib_eq_sums (dt : α → Date) (cv pv : α → ℚ × ℚ × ℚ) (d : Date)
    (rows : List α) :
    dateContrib dt cv pv d rows =
      ⟨sum3 ((rows.filter (fun r => decide (dt r = d))).map cv),
       sum3 ((rows.filter (fun r => decide (dt r = d))).map pv)⟩ := by
  induction rows with
  | nil => simp [dateContrib, sum3, DayTot.zero]
  | cons r t ih =>
    by_cases hd : dt r = d
    · simp only [dateContrib, List.foldr_cons, if_pos hd] at ih ⊢
      rw [ih]
      simp only [List.filter_cons, hd, decide_eq_true_eq, List.map_cons, sum3,
        List.foldr_cons, DayTot.addRow, DayTot.mk.injEq]
      exact ⟨add3_comm _ _, add3_comm _ _⟩
    · simp only [dateContrib, List.foldr_cons, if_neg hd] at ih ⊢
      rw [ih]
      simp [List.filter_cons, hd]

theorem summarize_days_canonical (rows : List HourRow) :
    summarize_days rows =
      (sortDates (keysOf (accumBy (fun r => r.timestamp.date)
          (fun r => r.cons_wh) (fun r => r.prod_wh) rows))).map (fun d =>
        ⟨d, div1000 (dateContrib (fun r => r.timestamp.date) (fun r => r.cons_wh)
              (fun r => r.prod_wh) d rows).cons,
            div1000 (dateContrib (fun r => r.timestamp.date) (fun r => r.cons_wh)
              (fun r => r.prod_wh) d rows).prod⟩) := by
  rw [summarize_days]
  refine List.map_congr_left ?_
  intro d _
  rw [lookupTot_accumBy]

theorem daily_totals_wh_canonical (rows : List Row) :
    daily_totals_wh rows =
      (sortDates (keysOf (accumBy (fun r => r.timestamp.date)
          (fun r => int3ToRat r.consumption_wh)
          (fun r => int3ToRat r.production_wh) rows))).map (fun d =>
        (d, dateContrib (fun r => r.timestamp.date)
          (fun r => int3ToRat r.consumption_wh)
          (fun r => int3ToRat r.production_wh) d rows)) := by
  rw [daily_totals_wh]
  refine List.map_congr_left ?_
  intro d _
  rw [lookupTot_accumBy]

theorem sum3_perm {u v : List (ℚ × ℚ × ℚ)} (h : u.Perm v) : sum3 u = sum3 v := by
  have e1 : (sum3 u).1 = (sum3 v).1 := by
    rw [sum3_fst, sum3_fst, (h.map (fun x => x.1)).sum_eq]
  have e2 : (sum3 u).2.1 = (sum3 v).2.1 := by
    rw [sum3_snd_fst, sum3_snd_fst, (h.map (fun x => x.2.1)).sum_eq]
  have e3 : (sum3 u).2.2 = (sum3 v).2.2 := by
    rw [sum3_snd_snd, sum3_snd_snd, (h.map (fun x => x.2.2)).sum_eq]
  exact Prod.ext_iff.mpr ⟨e1, Prod.ext_iff.mpr ⟨e2, e3⟩⟩

theorem dateContrib_perm (dt : α → Date) (cv pv : α → ℚ × ℚ × ℚ)
    {x y : List α} (h : x.Perm y) (d : Date) :
    dateContrib dt cv pv d x = dateContrib dt cv pv d y := by
  rw [dateContrib_eq_sums, dateContrib_eq_sums]
  have hf := h.filter (fun r => decide (dt r = d))
  rw [sum3_perm (hf.map cv), sum3_perm (hf.map pv)]

theorem accumBy_perm_sortKeys (dt : α → Date) (cv pv : α → ℚ × ℚ × ℚ)
    {x y : List α} (h : x.Perm y) :
    sortDates (keysOf (accumBy dt cv pv x)) =
      sortDates (keysOf (accumBy dt cv pv y)) := by
  have hmem : ∀ d, d ∈ keysOf (accumBy dt cv pv x) ↔
      d ∈ keysOf (accumBy dt cv pv y) := by
    intro d
    rw [mem_keysOf_accumBy, mem_keysOf_accumBy]
    exact (h.map dt).mem_iff
  have hkperm : (keysOf (accumBy dt cv pv x)).Perm (keysOf (accumBy dt cv pv y)) :=
    (List.perm_ext_iff_of_nodup (nodup_keysOf_accumBy dt cv pv x)
      (nodup_keysOf_accumBy dt cv pv y)).mpr hmem
  have hp : (sortDates (keysOf (accumBy dt cv pv x))).Perm
      (sortDates (keysOf (accumBy dt cv pv y))) :=
    (List.perm_insertionSort dateLe _).trans
      (hkperm.trans (List.perm_insertionSort dateLe _).symm)
  exact List.eq_of_perm_of_sorted hp (List.sorted_insertionSort dateLe _)
    (List.sorted_insertionSort dateLe _)

/-- C1: for every sequence of hourly records, `summarize_days` returns one
`DaySummary` per distinct calendar date among the records' timestamps (the
emitted dates are strictly ascending and are exactly the dates occurring in
the input), and each per-phase total is the sum of that phase's watt-hour
values over the records of that date, divided by 1000. -/
theorem C1_daily_aggregator_partition (rows : List HourRow) :
    List.Sorted dateLt ((summarize_days rows).map DaySummary.day) ∧
    (∀ x : Date, x ∈ (summarize_days rows).map DaySummary.day ↔
      x ∈ rows.map (fun r => r.timestamp.date)) ∧
    ∀ ds ∈ summarize_days rows,
      ds.cons_kwh.1 = ((rows.filter (fun r => decide (r.timestamp.date = ds.day))).map
          (fun r => r.cons_wh.1)).sum / 1000 ∧
      ds.cons_kwh.2.1 = ((rows.filter (fun r => decide (r.timestamp.date = ds.day))).map
          (fun r => r.cons_wh.2.1)).sum / 1000 ∧
      ds.cons_kwh.2.2 = ((rows.filter (fun r => decide (r.timestamp.date = ds.day))).map
          (fun r => r.cons_wh.2.2)).sum / 1000 ∧
      ds.prod_kwh.1 = ((rows.filter (fun r => decide (r.timestamp.date = ds.day))).map
          (fun r => r.prod_wh.1)).sum / 1000 ∧
      ds.prod_kwh.2.1 = ((rows.filter (fun r => decide (r.timestamp.date = ds.day))).map
          (fun r => r.prod_wh.2.1)).sum / 1000 ∧
      ds.prod_kwh.2.2 = ((rows.filter (fun r => decide (r.timestamp.date = ds.day))).map
          (fun r => r.prod_wh.2.2)).sum / 1000 := by
  have hmapday : (summarize_days rows).map DaySummary.day =
      sortDates (keysOf (accumBy (fun r => r.timestamp.date)
        (fun r => r.cons_wh) (fun r => r.prod_wh) rows)) := by
    rw [summarize_days_canonical, List.map_map]
    exact List.map_id _
  refine ⟨?_, ?_, ?_⟩
  · rw [hmapday]
    have hperm : (sortDates (keysOf (accumBy (fun r => r.timestamp.date)
        (fun r => r.cons_wh) (fun r => r.prod_wh) rows))).Perm
          (keysOf (accumBy (fun r => r.timestamp.date) (fun r => r.cons_wh)
            (fun r => r.prod_wh) rows)) :=
      List.perm_insertionSort dateLe _
    have hnd : (sortDates (keysOf (accumBy (fun r => r.timestamp.date)
        (fun r => r.cons_wh) (fun r => r.prod_wh) rows))).Nodup :=
      hperm.nodup_iff.mpr (nodup_keysOf_accumBy _ _ _ _)
    exact sorted_dateLt_of_nodup (List.sorted_insertionSort dateLe _) hnd
  · intro x
    rw [hmapday]
    have hperm : (sortDates (keysOf (accumBy (fun r => r.timestamp.date)
        (fun r => r.cons_wh) (fun r => r.prod_wh) rows))).Perm
          (keysOf (accumBy (fun r => r.timestamp.date) (fun r => r.cons_wh)
            (fun r => r.prod_wh) rows)) :=
      List.perm_insertionSort dateLe _
    rw [hperm.mem_iff, mem_keysOf_accumBy]
  · intro ds hds
    rw [summarize_days_canonical] at hds
    obtain ⟨d, hd, rfl⟩ := List.mem_map.1 hds
    simp only [dateContrib_eq_sums, div1000]
    refine ⟨?_, ?_, ?_, ?_, ?_, ?_⟩ <;>
      · simp only [sum3_fst, sum3_snd_fst, sum3_snd_snd, List.map_map]
        rfl

/-- Demonstration input for the aggregation claims: three hourly rows over
two dates, deliberately out of date order. -/
def demoRowsE : List HourRow :=
  [⟨⟨⟨2025, 10, 14⟩, ⟨0, 0, 0⟩⟩, (1000, 0, 0), (0, 0, 0)⟩,
   ⟨⟨⟨2025, 10, 13⟩, ⟨5, 0, 0⟩⟩, (500, 0, 0), (0, 250, 0)⟩,
   ⟨⟨⟨2025, 10, 14⟩, ⟨6, 0, 0⟩⟩, (1500, 0, 0), (0, 0, 0)⟩]

/-- The first summary `summarize_days` emits for `demoRowsE`. -/
def demoSummaryE : DaySummary := ⟨⟨2025, 10, 13⟩, (1 / 2, 0, 0), (0, 1 / 4, 0)⟩

set_option maxRecDepth 400000 in
theorem C1_daily_aggregator_partition_witness :
    List.Sorted dateLt ((summarize_days demoRowsE).map DaySummary.day) ∧
    demoSummaryE.cons_kwh.1 =
      ((demoRowsE.filter (fun r => decide (r.timestamp.date = demoSummaryE.day))).map
        (fun r => r.cons_wh.1)).sum / 1000 := by
  refine ⟨(C1_daily_aggregator_partition demoRowsE).1, ?_⟩
  have hmem : demoSummaryE ∈ summarize_days demoRowsE := by
    have h : summarize_days demoRowsE =
        [demoSummaryE, ⟨⟨2025, 10, 14⟩, (5 / 2, 0, 0), (0, 0, 0)⟩] := by
      with_unfolding_all rfl
    rw [h]
    exact List.mem_cons_self _ _
  exact ((C1_daily_aggregator_partition demoRowsE).2.2 demoSummaryE hmem).1

/-- C2: the daily aggregators of Task E and Task D are invariant under
permutation of the input records. -/
theorem C2_daily_aggregator_perm_invariant (l1 l2 : List HourRow)
    (r1 r2 : List Row) (h : l1.Perm l2) (hr : r1.Perm r2) :
    summarize_days l1 = summarize_days l2 ∧
    daily_totals_wh r1 = daily_totals_wh r2 := by
  constructor
  · rw [summarize_days_canonical, summarize_days_canonical,
      accumBy_perm_sortKeys _ _ _ h]
    refine List.map_congr_left ?_
    intro d _
    rw [dateContrib_perm _ _ _ h d]
  · rw [daily_totals_wh_canonical, daily_totals_wh_canonical,
      accumBy_perm_sortKeys _ _ _ hr]
    refine List.map_congr_left ?_
    intro d _
    rw [dateContrib_perm _ _ _ hr d]

/-- Two Task D rows on distinct dates, for the permutation witness. -/
def demoRowD1 : Row := ⟨⟨⟨2025, 10, 13⟩, ⟨0, 0, 0⟩⟩, (5, 6, 7), (1, 2, 3)⟩

/-- A second Task D row, see `demoRowD1`. -/
def demoRowD2 : Row := ⟨⟨⟨2025, 10, 12⟩, ⟨3, 0, 0⟩⟩, (8, 9, 10), (4, 5, 6)⟩

/-- Two Task E rows on the same date, for the permutation witness. -/
def demoRowE1 : HourRow := ⟨⟨⟨2025, 10, 13⟩, ⟨0, 0, 0⟩⟩, (100, 0, 0), (0, 0, 0)⟩

/-- A second Task E row, see `demoRowE1`. -/
def demoRowE2 : HourRow := ⟨⟨⟨2025, 10, 13⟩, ⟨1, 0, 0⟩⟩, (250, 0, 0), (0, 50, 0)⟩

theorem C2_daily_aggregator_perm_invariant_witness :
    summarize_days [demoRowE1, demoRowE2] = summarize_days [demoRowE2, demoRowE1] ∧
    daily_totals_wh [demoRowD1, demoRowD2] = daily_totals_wh [demoRowD2, demoRowD1] :=
  C2_daily_aggregator_perm_invariant [demoRowE1, demoRowE2] [demoRowE2, demoRowE1]
    [demoRowD1, demoRowD2] [demoRowD2, demoRowD1]
    (List.Perm.swap demoRowE2 demoRowE1 [])
    (List.Perm.swap demoRowD2 demoRowD1 [])

-- C8: reservation summary off-by-one ------------------------------------------

/-- C8: on the same reservations, Task C reports `len - confirmed` as the
not-confirmed count while both Task G variants report `len + 1 - confirmed`:
the Task G variants always exceed Task C by exactly one (they count the
header line as a reservation), and all three agree on the confirmed count. -/
theorem C8_confirmation_summary_off_by_one (rs : List Reservation) :
    taskC_confirmation_summary rs =
      (((rs.filter (fun r => r.confirmed)).length : ℤ),
        (rs.length : ℤ) - ((rs.filter (fun r => r.confirmed)).length : ℤ)) ∧
    taskG_class_confirmation_summary rs =
      (((rs.filter (fun r => r.confirmed)).length : ℤ),
        ((rs.length : ℤ) + 1) - ((rs.filter (fun r => r.confirmed)).length : ℤ)) ∧
    taskG_dict_confirmation_summary rs = taskG_class_confirmation_summary rs ∧
    (taskG_class_confirmation_summary rs).1 = (taskC_confirmation_summary rs).1 ∧
    (taskG_class_confirmation_summary rs).2 = (taskC_confirmation_summary rs).2 + 1 ∧
    (taskG_dict_confirmation_summary rs).2 = (taskC_confirmation_summary rs).2 + 1 := by
  refine ⟨rfl, rfl, rfl, rfl, ?_, ?_⟩ <;>
    · simp only [taskG_class_confirmation_summary, taskG_dict_confirmation_summary,
        taskC_confirmation_summary]
      ring

-- C9: Task D converts to whole watt-hours by half-to-even rounding ------------

theorem roundHalfEven_spec (q : ℚ) :
    |q - (roundHalfEven q : ℚ)| ≤ 1 / 2 ∧
    (|q - (roundHalfEven q : ℚ)| = 1 / 2 → 2 ∣ roundHalfEven q) := by
  have h0 : ((⌊q⌋ : ℤ) : ℚ) ≤ q := Int.floor_le q
  have h1 : q < (⌊q⌋ : ℚ) + 1 := Int.lt_floor_add_one q
  rw [roundHalfEven]
  split_ifs with ha hb hc
  · constructor
    · rw [abs_of_nonneg (by linarith)]
      linarith
    · intro habs
      rw [abs_of_nonneg (by linarith)] at habs
      linarith
  · constructor
    · rw [abs_of_nonpos (by push_cast; linarith)]
      push_cast
      linarith
    · intro habs
      rw [abs_of_nonpos (by push_cast; linarith)] at habs
      push_cast at habs
      linarith
  · have he : q - (⌊q⌋ : ℚ) = 1 / 2 := by linarith
    constructor
    · rw [abs_of_nonneg (by linarith)]
      linarith
    · intro _
      exact hc
  · have he : q - (⌊q⌋ : ℚ) = 1 / 2 := by linarith
    constructor
    · rw [abs_of_nonpos (by push_cast; linarith)]
      push_cast
      linarith
    · intro _
      omega

/-- C9: whenever Task D's `to_wh` succeeds, it returns the whole number of
watt-hours obtained by rounding the parsed float to the nearest integer with
ties going to the even integer (Python `round`); a blank field yields zero. -/
theorem C9_taskD_wh_half_even (s : String) (r : ℤ) (h : to_wh s = .ok r) :
    ((stripList s.data).map (fun c => if c == ' ' then ' ' else c) = [] ∧ r = 0) ∨
    ∃ q : ℚ,
      pyFloat? (String.mk (commaToDot
        ((stripList s.data).map (fun c => if c == ' ' then ' ' else c)))) = some q ∧
      r = roundHalfEven q ∧ |q - (r : ℚ)| ≤ 1 / 2 ∧
      (|q - (r : ℚ)| = 1 / 2 → 2 ∣ r) := by
  rw [to_wh] at h
  split_ifs at h with hempty
  · left
    refine ⟨by simpa using hempty, ?_⟩
    cases h
    rfl
  · right
    rcases hq : pyFloat? (String.mk (commaToDot
        ((stripList s.data).map (fun c => if c == ' ' then ' ' else c)))) with _ | q
    · rw [hq] at h
      cases h
    · rw [hq] at h
      cases h
      exact ⟨q, rfl, rfl, roundHalfEven_spec q⟩

theorem C9_taskD_wh_half_even_witness :
    ((stripList "10.6".data).map (fun c => if c == ' ' then ' ' else c) = [] ∧
      (11 : ℤ) = 0) ∨
    ∃ q : ℚ,
      pyFloat? (String.mk (commaToDot
        ((stripList "10.6".data).map (fun c => if c == ' ' then ' ' else c)))) = some q ∧
      (11 : ℤ) = roundHalfEven q ∧ |q - ((11 : ℤ) : ℚ)| ≤ 1 / 2 ∧
      (|q - ((11 : ℤ) : ℚ)| = 1 / 2 → 2 ∣ (11 : ℤ)) :=
  C9_taskD_wh_half_even "10.6" 11 (by with_unfolding_all rfl)

-- C10: Task F daily report is symmetric in its two dates ----------------------

/-- C10: the Task F daily-range report computation is symmetric in the two
entered dates: when the end date precedes the start date the two are swapped
before selection, so the effective period, the selected measurements and the
reported totals coincide for `(a, b)` and `(b, a)`. -/
theorem C10_create_daily_report_symmetric (data : List Measurement) (a b : Date) :
    create_daily_report_core data a b = create_daily_report_core data b a := by
  rcases hab : dateLtb b a with _ | _
  · rcases hba : dateLtb a b with _ | _
    · have : a = b := dateLtb_connex hba hab
      subst this
      rfl
    · simp [create_daily_report_core, hab, hba]
  · rcases hba : dateLtb a b with _ | _
    · simp [create_daily_report_core, hab, hba]
    · exact absurd hba (fun h => dateLtb_asymm h hab)

-- C3: timestamp parsers on unrecognized input ---------------------------------

/-- C3 counterexample: the token `garbage` matches none of the recognized
timestamp patterns, yet Task F's `_parse_timestamp` does not fail: it returns
the substitute value `datetime(1970, 1, 1)`. -/
theorem C3_counterexample_taskF_substitutes :
    fromisoformat? (String.mk (stripList "garbage".data)) = none ∧
    strpYmdHMS (String.mk (stripList "garbage".data)) = none ∧
    strpYmdHM (String.mk (stripList "garbage".data)) = none ∧
    strpYslashmdHM (String.mk (stripList "garbage".data)) = none ∧
    strpDotdmYHMS (String.mk (stripList "garbage".data)) = none ∧
    strpYmd (String.mk (stripList "garbage".data)) = none ∧
    strpYmd (String.mk ((stripList "garbage".data).take 10)) = none ∧
    taskF_parse_timestamp "garbage" = ⟨⟨1970, 1, 1⟩, ⟨0, 0, 0⟩⟩ :=
  ⟨rfl, rfl, rfl, rfl, rfl, rfl, rfl, rfl⟩

/-- C3 amended: the Task D and Task E timestamp parsers fail on every token
that matches none of their recognized patterns, with an error message naming
the unrecognized input; Task F's `_parse_timestamp` never fails and instead
returns the substitute `datetime(1970, 1, 1)` when all its patterns fail. -/
theorem C3_unrecognized_timestamp_behaviour :
    (∀ s : String,
      fromisoformat? (String.mk ((stripList s.data).filter (fun c => c != 'Z'))) = none →
      strpYmdHMS (String.mk ((stripList s.data).filter (fun c => c != 'Z'))) = none →
      strpYslashmdHM (String.mk ((stripList s.data).filter (fun c => c != 'Z'))) = none →
      strpDotdmYHMS (String.mk ((stripList s.data).filter (fun c => c != 'Z'))) = none →
      taskD_parse_timestamp s = .error ("Unrecognized timestamp format: " ++ s)) ∧
    (∀ s : String,
      fromisoformat? (String.mk (stripList s.data)) = none →
      strpYmdHMS (String.mk (stripList s.data)) = none →
      strpYmdHM (String.mk (stripList s.data)) = none →
      strpYmd (String.mk (stripList s.data)) = none →
      taskE_parse_timestamp s = .error ("Unrecognized timestamp format: " ++ s)) ∧
    (∀ s : String,
      fromisoformat? (String.mk (stripList s.data)) = none →
      strpYmd (String.mk ((stripList s.data).take 10)) = none →
      taskF_parse_timestamp s = ⟨⟨1970, 1, 1⟩, ⟨0, 0, 0⟩⟩) ∧
    (∀ s e, taskD_parse_timestamp s = .error e →
      e = "Unrecognized timestamp format: " ++ s) ∧
    (∀ s e, taskE_parse_timestamp s = .error e →
      e = "Unrecognized timestamp format: " ++ s) := by
  refine ⟨?_, ?_, ?_, ?_, ?_⟩
  · intro s h1 h2 h3 h4
    rw [taskD_parse_timestamp]
    rw [h1, h2, h3, h4]
  · intro s h1 h2 h3 h4
    rw [taskE_parse_timestamp]
    rw [h1, h2, h3, h4]
  · intro s h1 h2
    rw [taskF_parse_timestamp]
    rw [h1, h2]
  · intro s e h
    rw [taskD_parse_timestamp] at h
    rcases hf : fromisoformat? (String.mk ((stripList s.data).filter
        (fun c => c != 'Z'))) with _ | v
    all_goals rw [hf] at h
    · rcases h2 : strpYmdHMS (String.mk ((stripList s.data).filter
          (fun c => c != 'Z'))) with _ | v
      all_goals rw [h2] at h
      · rcases h3 : strpYslashmdHM (String.mk ((stripList s.data).filter
            (fun c => c != 'Z'))) with _ | v
        all_goals rw [h3] at h
        · rcases h4 : strpDotdmYHMS (String.mk ((stripList s.data).filter
              (fun c => c != 'Z'))) with _ | v
          all_goals rw [h4] at h
          · cases h
            rfl
          · cases h
        · cases h
      · cases h
    · cases h
  · intro s e h
    rw [taskE_parse_timestamp] at h
    rcases hf : fromisoformat? (String.mk (stripList s.data)) with _ | v
    all_goals rw [hf] at h
    · rcases h2 : strpYmdHMS (String.mk (stripList s.data)) with _ | v
      all_goals rw [h2] at h
      · rcases h3 : strpYmdHM (String.mk (stripList s.data)) with _ | v
        all_goals rw [h3] at h
        · rcases h4 : strpYmd (String.mk (stripList s.data)) with _ | v
          all_goals rw [h4] at h
          · cases h
            rfl
          · cases h
        · cases h
      · cases h
    · cases h

theorem C3_unrecognized_timestamp_behaviour_witness :
    taskD_parse_timestamp "nope" = .error ("Unrecognized timestamp format: " ++ "nope") ∧
    taskE_parse_timestamp "nope" = .error ("Unrecognized timestamp format: " ++ "nope") ∧
    taskF_parse_timestamp "nope" = ⟨⟨1970, 1, 1⟩, ⟨0, 0, 0⟩⟩ :=
  ⟨C3_unrecognized_timestamp_behaviour.1 "nope" rfl rfl rfl rfl,
   C3_unrecognized_timestamp_behaviour.2.1 "nope" rfl rfl rfl rfl,
   C3_unrecognized_timestamp_behaviour.2.2.1 "nope" rfl rfl⟩

-- C4: row handling of the readers ---------------------------------------------

set_option maxRecDepth 400000 in
/-- C4 counterexample: Task D's reader silently skips BOTH rows whose first
cell is not a parsable timestamp (not at most one) and continues past them to
parse the remaining data row, instead of raising a fatal error naming file
and line. -/
theorem C4_counterexample_taskD_skips_many :
    taskD_readRows [["header", "x"], ["junk"],
        ["2025-10-13 00:00:00", "5", "6", "7", "1", "2", "3"]] =
      .ok [⟨⟨⟨2025, 10, 13⟩, ⟨0, 0, 0⟩⟩, (5, 6, 7), (1, 2, 3)⟩] ∧
    blankRow ["header", "x"] = false ∧
    blankRow ["junk"] = false ∧
    (taskD_parse_timestamp "header").isOk = false ∧
    (taskD_parse_timestamp "junk").isOk = false :=
  ⟨by with_unfolding_all rfl, rfl, rfl, rfl, rfl⟩

/-- C4 amended: in Task E's reader the first failing data row (the rows being
numbered from `i`, line 2 of the file) aborts the whole read with an error
naming the file and the 1-based line number, so no partial result is returned
and no row after the malformed one is processed; in Task D's reader, any
non-blank row whose first cell is not a parsable timestamp is silently
skipped, however often it occurs, and reading continues with the next row. -/
theorem C4_reader_row_handling :
    (∀ (filename tsCol : String) (consCols prodCols : String × String × String)
        (good : List (List (String × String))) (bad : List (String × String))
        (rest : List (List (String × String))) (i : Nat) (e : String),
      (∀ r ∈ good, (taskE_parseRow tsCol consCols prodCols r).isOk = true) →
      taskE_parseRow tsCol consCols prodCols bad = .error e →
      taskE_readRows filename tsCol consCols prodCols i (good ++ bad :: rest) =
        .error ("Error parsing " ++ filename ++ " at line " ++
          String.mk (natStr (i + good.length)) ++ ": " ++ e)) ∧
    (∀ (raw : List String) (rest : List (List String)),
      blankRow raw = false →
      (taskD_parse_timestamp (raw.headD "")).isOk = false →
      taskD_readRows (raw :: rest) = taskD_readRows rest) := by
  constructor
  · intro filename tsCol consCols prodCols good
    induction good with
    | nil =>
      intro bad rest i e _ hbad
      rw [List.nil_append, taskE_readRows, hbad]
      simp
    | cons g gs ih =>
      intro bad rest i e hgood hbad
      have hok : (taskE_parseRow tsCol consCols prodCols g).isOk = true :=
        hgood g (List.mem_cons_self g gs)
      obtain ⟨row, hrow⟩ : ∃ row, taskE_parseRow tsCol consCols prodCols g = .ok row := by
        rcases hg : taskE_parseRow tsCol consCols prodCols g with er | row
        · rw [hg] at hok
          simp [Except.isOk, Except.toBool] at hok
        · exact ⟨row, rfl⟩
      rw [List.cons_append, taskE_readRows, hrow]
      have hrec := ih bad rest (i + 1) e
        (fun r hr => hgood r (List.mem_cons_of_mem g hr)) hbad
      rw [hrec]
      have hlen : i + 1 + gs.length = i + (g :: gs).length := by
        simp [List.length_cons]
        omega
      rw [hlen]
  · intro raw rest hblank hts
    rw [taskD_readRows, hblank]
    rcases ht : taskD_parse_timestamp (raw.headD "") with er | dt
    · simp
    · rw [ht] at hts
      simp [Except.isOk, Except.toBool] at hts

/-- A well-formed record for the Task E reader witness. -/
def demoRecGood : List (String × String) :=
  [("Time", "2025-10-13 00:00:00"), ("C1", "1"), ("C2", "2"), ("C3", "3"),
   ("P1", "4"), ("P2", "5"), ("P3", "6")]

/-- A record whose timestamp does not parse, for the Task E reader witness. -/
def demoRecBad : List (String × String) := [("Time", "nope")]

set_option maxRecDepth 400000 in
theorem C4_reader_row_handling_witness :
    taskE_readRows "week41.csv" "Time" ("C1", "C2", "C3") ("P1", "P2", "P3") 2
        [demoRecGood, demoRecBad] =
      .error ("Error parsing " ++ "week41.csv" ++ " at line " ++
        String.mk (natStr (2 + [demoRecGood].length)) ++ ": " ++
        ("Unrecognized timestamp format: " ++ "nope")) ∧
    taskD_readRows [["junk"], ["2025-10-13 00:00:00", "5", "6", "7", "1", "2", "3"]] =
      taskD_readRows [["2025-10-13 00:00:00", "5", "6", "7", "1", "2", "3"]] := by
  constructor
  · refine C4_reader_row_handling.1 "week41.csv" "Time" ("C1", "C2", "C3")
      ("P1", "P2", "P3") [demoRecGood] demoRecBad [] 2
      ("Unrecognized timestamp format: " ++ "nope") ?_ ?_
    · intro r hr
      rw [List.mem_singleton] at hr
      subst hr
      with_unfolding_all rfl
    · with_unfolding_all rfl
  · exact C4_reader_row_handling.2 ["junk"]
      [["2025-10-13 00:00:00", "5", "6", "7", "1", "2", "3"]] rfl rfl

-- C5: column detection --------------------------------------------------------

theorem assign_p1_of_ne (pc : PhaseCols) (p : Nat) (fn : String) (hp : p ≠ 1) :
    (pc.assign p fn).p1 = pc.p1 := by
  rw [PhaseCols.assign, if_neg hp]
  split_ifs <;> rfl

theorem assign_p2_of_ne (pc : PhaseCols) (p : Nat) (fn : String) (hp : p ≠ 2) :
    (pc.assign p fn).p2 = pc.p2 := by
  rw [PhaseCols.assign]
  split_ifs <;> first | rfl | exact absurd (by assumption) hp

theorem assign_p3_of_ne (pc : PhaseCols) (p : Nat) (fn : String) (hp : p ≠ 3) :
    (pc.assign p fn).p3 = pc.p3 := by
  rw [PhaseCols.assign]
  split_ifs <;> first | rfl | exact absurd (by assumption) hp

theorem assign_1_p1 (pc : PhaseCols) (fn : String) :
    (pc.assign 1 fn).p1 =
      (match pc.p1 with | none => some fn | some x => some x) := by
  rw [PhaseCols.assign, if_pos rfl]
  cases hp : pc.p1 <;> simp [hp]

theorem assign_2_p2 (pc : PhaseCols) (fn : String) :
    (pc.assign 2 fn).p2 =
      (match pc.p2 with | none => some fn | some x => some x) := by
  rw [PhaseCols.assign]
  norm_num
  cases hp : pc.p2 <;> simp [hp]

theorem assign_3_p3 (pc : PhaseCols) (fn : String) :
    (pc.assign 3 fn).p3 =
      (match pc.p3 with | none => some fn | some x => some x) := by
  rw [PhaseCols.assign]
  norm_num
  cases hp : pc.p3 <;> simp [hp]

theorem scanPhases_eq_scanRole (l : List String) :
    ∀ cc pc, scanPhases l cc pc = (scanRole consCand l cc, scanRole prodCand l pc) := by
  induction l with
  | nil => intro cc pc; rfl
  | cons fn rest ih => intro cc pc; rw [scanPhases, scanRole, scanRole, ih]

theorem scanRole_p1 (cand : List Char → Bool) :
    ∀ (l : List String) (pc : PhaseCols),
      (scanRole cand l pc).p1 =
        (match pc.p1 with
         | some x => some x
         | none => phaseFind cand 1 l) := by
  intro l
  induction l with
  | nil =>
    intro pc
    cases hp : pc.p1 <;> simp [scanRole, phaseFind, hp]
  | cons fn rest ih =>
    intro pc
    rw [scanRole, ih]
    by_cases hcand : cand (normHeader fn)
    · rcases hld : lastDigit123 (normHeader fn) with _ | p
      · have hstep : phaseFind cand 1 (fn :: rest) = phaseFind cand 1 rest := by
          rw [phaseFind, List.find?_cons_of_neg, phaseFind]
          simp [hld]
        simp only [if_pos hcand, hld, hstep]
      · by_cases hp : p = 1
        · subst hp
          have hstep : phaseFind cand 1 (fn :: rest) = some fn := by
            rw [phaseFind, List.find?_cons_of_pos]
            simp [hcand, hld]
          simp only [if_pos hcand, hld, hstep, assign_1_p1]
          cases hpc : pc.p1 <;> simp
        · have hstep : phaseFind cand 1 (fn :: rest) = phaseFind cand 1 rest := by
            rw [phaseFind, List.find?_cons_of_neg, phaseFind]
            simp [hld, hp]
          simp only [if_pos hcand, hld, assign_p1_of_ne pc p fn hp, hstep]
    · have hstep : phaseFind cand 1 (fn :: rest) = phaseFind cand 1 rest := by
        rw [phaseFind, List.find?_cons_of_neg, phaseFind]
        simp [hcand]
      simp only [if_neg hcand, hstep]

theorem scanRole_p2 (cand : List Char → Bool) :
    ∀ (l : List String) (pc : PhaseCols),
      (scanRole cand l pc).p2 =
        (match pc.p2 with
         | some x => some x
         | none => phaseFind cand 2 l) := by
  intro l
  induction l with
  | nil =>
    intro pc
    cases hp : pc.p2 <;> simp [scanRole, phaseFind, hp]
  | cons fn rest ih =>
    intro pc
    rw [scanRole, ih]
    by_cases hcand : cand (normHeader fn)
    · rcases hld : lastDigit123 (normHeader fn) with _ | p
      · have hstep : phaseFind cand 2 (fn :: rest) = phaseFind cand 2 rest := by
          rw [phaseFind, List.find?_cons_of_neg, phaseFind]
          simp [hld]
        simp only [if_pos hcand, hld, hstep]
      · by_cases hp : p = 2
        · subst hp
          have hstep : phaseFind cand 2 (fn :: rest) = some fn := by
            rw [phaseFind, List.find?_cons_of_pos]
            simp [hcand, hld]
          simp only [if_pos hcand, hld, hstep, assign_2_p2]
          cases hpc : pc.p2 <;> simp
        · have hstep : phaseFind cand 2 (fn :: rest) = phaseFind cand 2 rest := by
            rw [phaseFind, List.find?_cons_of_neg, phaseFind]
            simp [hld, hp]
          simp only [if_pos hcand, hld, assign_p2_of_ne pc p fn hp, hstep]
    · have hstep : phaseFind cand 2 (fn :: rest) = phaseFind cand 2 rest := by
        rw [phaseFind, List.find?_cons_of_neg, phaseFind]
        simp [hcand]
      simp only [if_neg hcand, hstep]

theorem scanRole_p3 (cand : List Char → Bool) :
    ∀ (l : List String) (pc : PhaseCols),
      (scanRole cand l pc).p3 =
        (match pc.p3 with
         | some x => some x
         | none => phaseFind cand 3 l) := by
  intro l
  induction l with
  | nil =>
    intro pc
    cases hp : pc.p3 <;> simp [scanRole, phaseFind, hp]
  | cons fn rest ih =>
    intro pc
    rw [scanRole, ih]
    by_cases hcand : cand (normHeader fn)
    · rcases hld : lastDigit123 (normHeader fn) with _ | p
      · have hstep : phaseFind cand 3 (fn :: rest) = phaseFind cand 3 rest := by
          rw [phaseFind, List.find?_cons_of_neg, phaseFind]
          simp [hld]
        simp only [if_pos hcand, hld, hstep]
      · by_cases hp : p = 3
        · subst hp
          have hstep : phaseFind cand 3 (fn :: rest) = some fn := by
            rw [phaseFind, List.find?_cons_of_pos]
            simp [hcand, hld]
          simp only [if_pos hcand, hld, hstep, assign_3_p3]
          cases hpc : pc.p3 <;> simp
        · have hstep : phaseFind cand 3 (fn :: rest) = phaseFind cand 3 rest := by
            rw [phaseFind, List.find?_cons_of_neg, phaseFind]
            simp [hld, hp]
          simp only [if_pos hcand, hld, assign_p3_of_ne pc p fn hp, hstep]
    · have hstep : phaseFind cand 3 (fn :: rest) = phaseFind cand 3 rest := by
        rw [phaseFind, List.find?_cons_of_neg, phaseFind]
        simp [hcand]
      simp only [if_neg hcand, hstep]

/-- C5 amended: on a successful detection, the timestamp column is the first
header whose normalized form contains `timestamp` or `datetime` or equals
`time` or `date`, and each phase column of either role is the FIRST header
that is a candidate for that role and whose LAST digit 1, 2 or 3 in the
normalized text (the digit captured by the greedy pattern `.*([123]).*`)
equals that phase; later headers with the same role and phase digit are
ignored. -/
theorem C5_column_detector_last_digit (fieldnames : List String)
    (ts : String) (cs ps : String × String × String)
    (h : _detect_columns fieldnames = .ok (ts, cs, ps)) :
    fieldnames.find? (fun fn => tsPred (normHeader fn)) = some ts ∧
    phaseFind consCand 1 fieldnames = some cs.1 ∧
    phaseFind consCand 2 fieldnames = some cs.2.1 ∧
    phaseFind consCand 3 fieldnames = some cs.2.2 ∧
    phaseFind prodCand 1 fieldnames = some ps.1 ∧
    phaseFind prodCand 2 fieldnames = some ps.2.1 ∧
    phaseFind prodCand 3 fieldnames = some ps.2.2 := by
  rw [_detect_columns] at h
  by_cases he : fieldnames.isEmpty
  · rw [if_pos he] at h
    cases h
  · rw [if_neg he] at h
    rcases hf : fieldnames.find? (fun fn => tsPred (normHeader fn)) with _ | tsCol
    all_goals rw [hf] at h
    · cases h
    · rw [scanPhases_eq_scanRole] at h
      simp only [scanRole_p1, scanRole_p2, scanRole_p3] at h
      rcases h1 : phaseFind consCand 1 fieldnames with _ | c1
      all_goals rw [h1] at h
      · simp at h
      rcases h2 : phaseFind consCand 2 fieldnames with _ | c2
      all_goals rw [h2] at h
      · simp at h
      rcases h3 : phaseFind consCand 3 fieldnames with _ | c3
      all_goals rw [h3] at h
      · simp at h
      rcases h4 : phaseFind prodCand 1 fieldnames with _ | q1
      all_goals rw [h4] at h
      · simp at h
      rcases h5 : phaseFind prodCand 2 fieldnames with _ | q2
      all_goals rw [h5] at h
      · simp at h
      rcases h6 : phaseFind prodCand 3 fieldnames with _ | q3
      all_goals rw [h6] at h
      · simp at h
      simp only [Except.ok.injEq, Prod.mk.injEq] at h
      obtain ⟨rfl, rfl, rfl⟩ := h
      exact ⟨rfl, rfl, rfl, rfl, rfl, rfl, rfl⟩

/-- Header row used to exercise the column detector. -/
def demoHeaders : List String :=
  ["Time", "Consumption phase 1 Wh", "Consumption phase 2 Wh",
   "Consumption phase 3 Wh", "Production phase 1 Wh", "Production phase 2 Wh",
   "Production phase 3 Wh"]

theorem C5_column_detector_last_digit_witness :
    demoHeaders.find? (fun fn => tsPred (normHeader fn)) = some "Time" ∧
    phaseFind consCand 1 demoHeaders = some "Consumption phase 1 Wh" ∧
    phaseFind consCand 2 demoHeaders = some "Consumption phase 2 Wh" ∧
    phaseFind consCand 3 demoHeaders = some "Consumption phase 3 Wh" ∧
    phaseFind prodCand 1 demoHeaders = some "Production phase 1 Wh" ∧
    phaseFind prodCand 2 demoHeaders = some "Production phase 2 Wh" ∧
    phaseFind prodCand 3 demoHeaders = some "Production phase 3 Wh" :=
  C5_column_detector_last_digit demoHeaders "Time"
    ("Consumption phase 1 Wh", "Consumption phase 2 Wh", "Consumption phase 3 Wh")
    ("Production phase 1 Wh", "Production phase 2 Wh", "Production phase 3 Wh")
    (by rfl)

/-- C5 counterexample: the header `Cons 1-2` normalizes to `cons12`; its
FIRST digit is 1, but the detector assigns it phase 2 (the last digit, which
the greedy pattern captures), while the later header `Cons 1` becomes the
phase-1 column.  Under the claimed first-digit rule, `Cons 1-2` (which comes
first) would have been the phase-1 column instead. -/
theorem C5_counterexample_first_digit :
    _detect_columns ["Time", "Cons 1-2", "Cons 1", "Cons 3", "Prod 1",
        "Prod 2", "Prod 3"] =
      .ok ("Time", ("Cons 1", "Cons 1-2", "Cons 3"),
        ("Prod 1", "Prod 2", "Prod 3")) ∧
    consCand (normHeader "Cons 1-2") = true ∧
    firstDigit123 (normHeader "Cons 1-2") = some 1 ∧
    lastDigit123 (normHeader "Cons 1-2") = some 2 :=
  ⟨rfl, rfl, rfl, rfl⟩

-- C6: numeric normalizer ------------------------------------------------------

theorem data_mk (l : List Char) : (String.mk l).data = l := rfl

theorem dropWhile_ws_nil (ws : List Char) (h : ∀ c ∈ ws, isPyWs c = true) :
    List.dropWhile isPyWs ws = [] := by
  induction ws with
  | nil => rfl
  | cons a t ih =>
    have ha := h a (List.mem_cons_self a t)
    rw [List.dropWhile_cons, if_pos ha]
    exact ih (fun c hc => h c (List.mem_cons_of_mem a hc))

theorem stripList_pad (ws1 ws2 l : List Char)
    (h1 : ∀ c ∈ ws1, isPyWs c = true) (h2 : ∀ c ∈ ws2, isPyWs c = true) :
    stripList (ws1 ++ l ++ ws2) = stripList l := by
  rw [stripList, stripList, List.append_assoc, List.dropWhile_append_of_pos h1]
  rcases hA : List.dropWhile isPyWs l with _ | ⟨a, t⟩
  · rw [List.dropWhile_append, hA]
    simp [dropWhile_ws_nil ws2 h2]
  · rw [List.dropWhile_append, hA]
    simp only [List.isEmpty_cons, List.cons_append, ite_false, Bool.false_eq_true,
      if_false]
    rw [← List.cons_append, List.reverse_append,
      List.dropWhile_append_of_pos (fun c hc => h2 c (List.mem_reverse.1 hc))]

theorem stripList_map_comm (g : Char → Char) (h : ∀ c, isPyWs (g c) = isPyWs c)
    (l : List Char) : stripList (l.map g) = (stripList l).map g := by
  have hps : (isPyWs ∘ g) = isPyWs := funext h
  rw [stripList, stripList, List.dropWhile_map, hps, ← List.map_reverse,
    List.dropWhile_map, hps, List.map_reverse]

theorem mem_stripList {c : Char} {l : List Char} (h : c ∈ stripList l) : c ∈ l := by
  rw [stripList] at h
  rw [List.mem_reverse] at h
  have h2 := (List.dropWhile_sublist isPyWs).subset h
  rw [List.mem_reverse] at h2
  exact (List.dropWhile_sublist isPyWs).subset h2

theorem isPyWs_dotSwap (c : Char) :
    isPyWs (if c == '.' then ',' else c) = isPyWs c := by
  by_cases h : c = '.'
  · subst h; rfl
  · simp [h]

theorem commaToDot_dotToComma (l : List Char) (h : ',' ∉ l) :
    commaToDot (dotToComma l) = commaToDot l := by
  rw [commaToDot, dotToComma, List.map_map, commaToDot]
  refine List.map_congr_left ?_
  intro c hc
  by_cases hd : c = '.'
  · subst hd; rfl
  · have hcm : c ≠ ',' := fun he => h (he ▸ hc)
    simp [Function.comp, hd, hcm]

theorem normArg_pad (ws1 ws2 l : List Char)
    (h1 : ∀ c ∈ ws1, isPyWs c = true) (h2 : ∀ c ∈ ws2, isPyWs c = true) :
    commaToDot (stripList (ws1 ++ l ++ ws2)) = commaToDot (stripList l) := by
  rw [stripList_pad ws1 ws2 l h1 h2]

theorem normArg_swap (l : List Char) (h : ',' ∉ l) :
    commaToDot (stripList (dotToComma l)) = commaToDot (stripList l) := by
  rw [dotToComma, stripList_map_comm _ isPyWs_dotSwap l]
  exact commaToDot_dotToComma (stripList l) (fun hc => h (mem_stripList hc))

/-- C6: the numeric normalizers of Task F (`_parse_float`) and Task E
(`parse_wh`) trim surrounding whitespace (including the no-break space, which
`isPyWs` contains), map the empty string to zero, and yield the same value
whether the token uses a point or a comma as decimal separator; in
particular `19.95` and `19,95` both normalize to 19.95. -/
theorem C6_numeric_normalizer (s : String) (ws1 ws2 : List Char)
    (hw1 : ∀ c ∈ ws1, isPyWs c = true) (hw2 : ∀ c ∈ ws2, isPyWs c = true)
    (hnc : ',' ∉ s.data) :
    taskF_parse_float (String.mk (ws1 ++ s.data ++ ws2)) = taskF_parse_float s ∧
    parse_wh (String.mk (ws1 ++ s.data ++ ws2)) = parse_wh s ∧
    taskF_parse_float (String.mk (dotToComma s.data)) = taskF_parse_float s ∧
    parse_wh (String.mk (dotToComma s.data)) = parse_wh s ∧
    taskF_parse_float "" = 0 ∧ parse_wh "" = .ok 0 ∧
    taskF_parse_float "19.95" = 1995 / 100 ∧
    taskF_parse_float "19,95" = 1995 / 100 ∧
    parse_wh "19.95" = .ok (1995 / 100) ∧
    parse_wh "19,95" = .ok (1995 / 100) := by
  have hpad := normArg_pad ws1 ws2 s.data hw1 hw2
  have hswap := normArg_swap s.data hnc
  refine ⟨?_, ?_, ?_, ?_, ?_, ?_, ?_, ?_, ?_, ?_⟩
  · rw [taskF_parse_float, taskF_parse_float, data_mk, hpad]
  · rw [parse_wh, parse_wh, data_mk, hpad]
  · rw [taskF_parse_float, taskF_parse_float, data_mk, hswap]
  · rw [parse_wh, parse_wh, data_mk, hswap]
  · rfl
  · rfl
  · with_unfolding_all rfl
  · with_unfolding_all rfl
  · with_unfolding_all rfl
  · with_unfolding_all rfl

theorem C6_numeric_normalizer_witness :
    taskF_parse_float (String.mk ([' ', ' '] ++ "19.95".data ++ [' '])) =
      taskF_parse_float "19.95" ∧
    parse_wh (String.mk (dotToComma "19.95".data)) = parse_wh "19.95" ∧
    taskF_parse_float "19.95" = 1995 / 100 := by
  have h := C6_numeric_normalizer "19.95" [' ', ' '] [' ']
    (by decide) (by decide) (by decide)
  exact ⟨h.1, h.2.2.2.1, h.2.2.2.2.2.2.1⟩

-- C7: report formatting -------------------------------------------------------

theorem digitChar_isDigit {k : Nat} (h : k < 10) :
    (Nat.digitChar k).isDigit = true := by
  interval_cases k <;> rfl

theorem digit_ne_sep {c : Char} (h : c.isDigit = true) : c ≠ ',' ∧ c ≠ '.' :=
  ⟨fun he => by rw [he] at h; exact absurd h (by decide),
   fun he => by rw [he] at h; exact absurd h (by decide)⟩

theorem natStrAux_digits : ∀ fuel n, ∀ c ∈ natStrAux fuel n, c.isDigit = true := by
  intro fuel
  induction fuel with
  | zero => intro n c hc; simp [natStrAux] at hc
  | succ f ih =>
    intro n c hc
    rw [natStrAux] at hc
    split_ifs at hc with h
    · rw [List.mem_singleton] at hc
      subst hc
      exact digitChar_isDigit h
    · rw [List.mem_append] at hc
      rcases hc with hc | hc
      · exact ih _ c hc
      · rw [List.mem_singleton] at hc
        subst hc
        exact digitChar_isDigit (Nat.mod_lt n (by omega))

theorem natStr_digits (n : Nat) : ∀ c ∈ natStr n, c.isDigit = true :=
  natStrAux_digits (n + 1) n

theorem natStr_ne_nil (n : Nat) : natStr n ≠ [] := by
  rw [natStr, natStrAux]
  split_ifs
  · simp
  · simp

theorem natStr_single {n : Nat} (h : n < 10) : natStr n = [Nat.digitChar n] := by
  rw [natStr, natStrAux, if_pos h]

theorem pad2_eq (n : Nat) (h : n < 100) :
    pad2 n = [Nat.digitChar (n / 10), Nat.digitChar (n % 10)] := by
  rw [pad2, if_pos h]

theorem dotToComma_digit {c : Char} (h : c.isDigit = true) :
    (if c == '.' then ',' else c) = c := by
  have hne : c ≠ '.' := (digit_ne_sep h).2
  simp [hne]

theorem twoFrac_render (q : ℚ) :
    TwoFracComma (String.mk (dotToComma (formatFixed2 q))) := by
  rw [formatFixed2]
  generalize roundHalfEven (q * 100) = n
  have hmod : n.natAbs % 100 < 100 := Nat.mod_lt _ (by norm_num)
  have hd1 : n.natAbs % 100 / 10 < 10 := by omega
  have hd2 : n.natAbs % 100 % 10 < 10 := by omega
  refine ⟨dotToComma ((if n < 0 then ['-'] else []) ++ natStr (n.natAbs / 100)),
    Nat.digitChar (n.natAbs % 100 / 10), Nat.digitChar (n.natAbs % 100 % 10),
    ?_, digitChar_isDigit hd1, digitChar_isDigit hd2, ?_⟩
  · rw [data_mk, pad2_eq _ hmod, dotToComma, List.map_append]
    rw [show dotToComma ((if n < 0 then ['-'] else []) ++ natStr (n.natAbs / 100)) =
      List.map (fun c => if c == '.' then ',' else c)
        ((if n < 0 then ['-'] else []) ++ natStr (n.natAbs / 100)) from rfl]
    congr 1
    rw [List.map_cons, List.map_cons, List.map_cons, List.map_nil]
    rw [dotToComma_digit (digitChar_isDigit hd1),
      dotToComma_digit (digitChar_isDigit hd2)]
    rfl
  · intro c hc
    obtain ⟨c0, hc0, rfl⟩ := List.mem_map.1 hc
    rw [List.mem_append] at hc0
    rcases hc0 with hs | hnat
    · have hc0 : c0 = '-' := by
        split_ifs at hs
        · rwa [List.mem_singleton] at hs
        · simp at hs
      subst hc0
      exact ⟨by decide, by decide⟩
    · have hdig := natStr_digits _ c0 hnat
      rw [dotToComma_digit hdig]
      exact digit_ne_sep hdig

theorem isPaddedDMY_pad (dd mm yy : Nat) (hd : dd < 100) (hm : mm < 100) :
    isPaddedDMY (String.mk (pad2 dd ++ '.' :: pad2 mm ++ '.' :: natStr yy)) = true := by
  rw [isPaddedDMY, data_mk, pad2_eq _ hd, pad2_eq _ hm]
  simp only [List.cons_append, List.nil_append]
  have e1 := digitChar_isDigit (show dd / 10 < 10 by omega)
  have e2 := digitChar_isDigit (show dd % 10 < 10 by omega)
  have e3 := digitChar_isDigit (show mm / 10 < 10 by omega)
  have e4 := digitChar_isDigit (show mm % 10 < 10 by omega)
  have e5 := natStr_ne_nil yy
  have e6 := natStr_digits yy
  simp [e1, e2, e3, e4, List.isEmpty_iff, e5, List.all_eq_true]
  exact e6

/-- C7 amended: the Task D and Task E date formatters render the zero-padded
`dd.mm.yyyy` shape, while Task F's `fmt_date` does not zero-pad: on a
single-digit day its output cannot have the `dd.mm.yyyy` shape; every decimal
quantity rendered by the three formatters has exactly two fraction digits
with a comma, never a point, as separator. -/
theorem C7_report_formatting (d : Date) (q : ℚ) (hd : d.day ≤ 31)
    (hm : d.month ≤ 12) (hday1 : d.day < 10) :
    isPaddedDMY (format_date_fi d) = true ∧
    isPaddedDMY (fi_date d) = true ∧
    isPaddedDMY (fmt_date d) = false ∧
    TwoFracComma (fi_number q) ∧
    TwoFracComma (kwh_str_from_wh q) ∧
    TwoFracComma (taskF_fmt_decimal q) := by
  refine ⟨isPaddedDMY_pad d.day d.month d.year (by omega) (by omega),
    isPaddedDMY_pad d.day d.month d.year (by omega) (by omega), ?_,
    twoFrac_render q, twoFrac_render (q / 1000), twoFrac_render q⟩
  rw [fmt_date, natStr_single hday1]
  rw [isPaddedDMY, data_mk]
  simp only [List.cons_append, List.nil_append]
  generalize natStr d.month ++ '.' :: natStr d.year = rest
  rcases rest with _ | ⟨c3, _ | ⟨c4, _ | ⟨c5, _ | ⟨c6, r⟩⟩⟩⟩ <;> simp

/-- C7 counterexample: `fmt_date` renders 1 November 2025 as `1.11.2025`,
which does not have the zero-padded `dd.mm.yyyy` form the claim asserts for
every rendered date (`01.11.2025` has that form, the actual output does
not). -/
theorem C7_counterexample_fmt_date_unpadded :
    fmt_date ⟨2025, 11, 1⟩ = "1.11.2025" ∧
    isPaddedDMY (fmt_date ⟨2025, 11, 1⟩) = false ∧
    isPaddedDMY "01.11.2025" = true ∧
    format_date_fi ⟨2025, 11, 1⟩ = "01.11.2025" ∧
    fi_date ⟨2025, 11, 1⟩ = "01.11.2025" :=
  ⟨rfl, rfl, rfl, rfl, rfl⟩

theorem C7_report_formatting_witness :
    isPaddedDMY (format_date_fi ⟨2025, 11, 2⟩) = true ∧
    isPaddedDMY (fi_date ⟨2025, 11, 2⟩) = true ∧
    isPaddedDMY (fmt_date ⟨2025, 11, 2⟩) = false ∧
    TwoFracComma (fi_number 24) ∧
    TwoFracComma (kwh_str_from_wh 24) ∧
    TwoFracComma (taskF_fmt_decimal 24) :=
  C7_report_formatting ⟨2025, 11, 2⟩ 24 (by decide) (by decide) (by decide)
